import Mathlib

/-!
# db_migrate: the schema bootstrap tool

A shallow embedding of `src/db_migrate/main.go`.  The program is a linear
script over external collaborators (flag, viper, logrus, lumberjack, gorm,
database/sql, pitaya).  Every collaborator call becomes an `Event` appended to
the trace of the process; what a collaborator answers is read from a `World`,
so that a statement quantified over `World` speaks about every outcome of the
collaborators.  `os.Exit` is modelled by returning early with the exit status.
`process` is the whole of `func main`: `flag.Parse()` on the command line, then
`main`, which is `func main` from line 52 on.  The libraries are modelled as
far as the program uses them (the argument loop of flag, the level names and
the level filter of logrus, the pool setters of database/sql, the constants of
time).  Standard output is kept apart from the trace: the program prints
nothing there itself, gorm's own logger does.
-/

namespace DbMigrate

/-! ## logrus -/

/-- The severities of logrus, in the order of `logrus.Level` (a `uint32`,
`PanicLevel = 0` up to `TraceLevel = 6`). -/
inductive Level where
  | PanicLevel
  | FatalLevel
  | ErrorLevel
  | WarnLevel
  | InfoLevel
  | DebugLevel
  | TraceLevel
deriving DecidableEq, Repr

/-- Numeric value of a `logrus.Level`. -/
def Level.toNat : Level → Nat
  | .PanicLevel => 0
  | .FatalLevel => 1
  | .ErrorLevel => 2
  | .WarnLevel => 3
  | .InfoLevel => 4
  | .DebugLevel => 5
  | .TraceLevel => 6

/-- Lower case of one character as far as the level names can tell: the ASCII
capitals, and the two letters outside ASCII whose lower case `unicode.ToLower`
places inside ASCII (U+0130 gives `i`, U+212A gives `k`).  Every other character
stays outside the ASCII letters, as it does in Go. -/
def toLowerRune (c : Char) : Char :=
  if c = Char.ofNat 0x130 then 'i'
  else if c = Char.ofNat 0x212A then 'k'
  else c.toLower

/-- Lower-casing of a text, `strings.ToLower`. -/
def toLower (s : String) : String :=
  String.mk (s.data.map toLowerRune)

/-- The function `logrus.ParseLevel`: the accepted names, compared after
lower-casing, and for every other text the error
`fmt.Errorf("not a valid logrus Level: %q", lvl)`.  The quoting of the verb `%q`
(`strconv.Quote`) is the parameter `quote`. -/
def ParseLevel (quote : String → String) (lvl : String) : Except String Level :=
  let l := toLower lvl
  if l = "panic" then .ok .PanicLevel
  else if l = "fatal" then .ok .FatalLevel
  else if l = "error" then .ok .ErrorLevel
  else if l = "warn" then .ok .WarnLevel
  else if l = "warning" then .ok .WarnLevel
  else if l = "info" then .ok .InfoLevel
  else if l = "debug" then .ok .DebugLevel
  else if l = "trace" then .ok .TraceLevel
  else .error ("not a valid logrus Level: " ++ quote lvl)

/-- The rotating file writer `lumberjack.Logger`, with the fields the program
sets (`MaxSize` in megabytes, `MaxAge` in days). -/
structure LumberjackLogger where
  Filename : String
  MaxSize : Nat
  MaxBackups : Nat
  MaxAge : Nat
  Compress : Bool
deriving DecidableEq, Repr

/-- The size bound of lumberjack in bytes: `MaxSize * 1024 * 1024`. -/
def LumberjackLogger.max (l : LumberjackLogger) : Nat :=
  l.MaxSize * (1024 * 1024)

/-- Where the process-wide logger writes: `os.Stderr` (the logrus default) or
a writer installed by `logrus.SetOutput`. -/
inductive Output where
  | stderr
  | lumberjack (l : LumberjackLogger)
deriving DecidableEq, Repr

/-- The standard logger of logrus: its output and its level. -/
structure Logger where
  Out : Output
  Level : Level
deriving DecidableEq, Repr

/-- The standard logger as logrus creates it: `os.Stderr`, `InfoLevel`. -/
def Logger.std : Logger := ⟨.stderr, .InfoLevel⟩

/-- The check `Logger.IsLevelEnabled`: `logger.level() >= level`. -/
def Logger.IsLevelEnabled (lg : Logger) (level : DbMigrate.Level) : Bool :=
  decide (level.toNat ≤ lg.Level.toNat)

/-- One record written by the logger: the writer it went to, its severity and
its formatted message. -/
structure Record where
  out : Output
  level : Level
  msg : String
deriving DecidableEq, Repr

/-! ## database/sql and time -/

/-- Go's `time.Nanosecond`, the unit of `time.Duration`. -/
def Nanosecond : Int := 1

/-- Go's `time.Microsecond`. -/
def Microsecond : Int := 1000 * Nanosecond

/-- Go's `time.Millisecond`. -/
def Millisecond : Int := 1000 * Microsecond

/-- Go's `time.Second`. -/
def Second : Int := 1000 * Millisecond

/-- Go's `time.Minute`. -/
def Minute : Int := 60 * Second

/-- Go's `time.Hour`. -/
def Hour : Int := 60 * Minute

/-- The pool settings of a `sql.DB`.  `maxIdleCount = 0` stands for the default
of two idle connections, `maxOpen = 0` for no limit, `maxLifetime = 0` for
connections that are never too old. -/
structure SqlDB where
  maxIdleCount : Int
  maxOpen : Int
  maxLifetime : Int
deriving DecidableEq, Repr

/-- A freshly opened `sql.DB`: all pool settings at their zero value. -/
def SqlDB.fresh : SqlDB := ⟨0, 0, 0⟩

/-- The idle limit in force, `maxIdleConnsLocked` of database/sql. -/
def SqlDB.maxIdleConns (db : SqlDB) : Int :=
  if db.maxIdleCount = 0 then 2
  else if db.maxIdleCount < 0 then 0
  else db.maxIdleCount

/-- The setter `(*sql.DB).SetMaxIdleConns`. -/
def SqlDB.SetMaxIdleConns (db : SqlDB) (n : Int) : SqlDB :=
  let db1 : SqlDB := { db with maxIdleCount := if 0 < n then n else -1 }
  if 0 < db1.maxOpen ∧ db1.maxOpen < db1.maxIdleConns then
    { db1 with maxIdleCount := db1.maxOpen }
  else db1

/-- The setter `(*sql.DB).SetMaxOpenConns`. -/
def SqlDB.SetMaxOpenConns (db : SqlDB) (n : Int) : SqlDB :=
  let db1 : SqlDB := { db with maxOpen := if n < 0 then 0 else n }
  if 0 < db1.maxOpen ∧ db1.maxOpen < db1.maxIdleConns then
    db1.SetMaxIdleConns n
  else db1

/-- The setter `(*sql.DB).SetConnMaxLifetime`. -/
def SqlDB.SetConnMaxLifetime (db : SqlDB) (d : Int) : SqlDB :=
  { db with maxLifetime := if d < 0 then 0 else d }

/-- A `*gorm.DB`: the connection string it was opened with and its pool. -/
structure GormDB where
  dsn : String
  sqlDB : SqlDB
deriving DecidableEq, Repr

/-! ## The database schema -/

/-- A column of a table: its name, its type, whether it may be null and its
default. -/
structure Column where
  name : String
  type : String
  nullable : Bool
  default : Option String
deriving DecidableEq, Repr

/-- A table of the live schema: its columns, the columns of its primary key,
its indexes and its foreign keys. -/
structure Table where
  name : String
  columns : List Column
  primaryKey : List String
  indexes : List String
  foreignKeys : List String
deriving DecidableEq, Repr

/-- The live schema of the database. -/
abbrev Schema := List Table

/-- An entity descriptor handed to the migrator, by the name of its Go type. -/
abbrev Descriptor := String

/-- The descriptor `&models.Player{}`. -/
def Player : Descriptor := "models.Player"

/-- Nothing of `s` is missing from `t`: every table of `s` is still in `t`
under its name, with every column as it was (name, type, nullability and
default), the same primary key, and every index and foreign key it had. -/
def Schema.Preserved (s t : Schema) : Prop :=
  ∀ a ∈ s, ∃ b ∈ t, b.name = a.name ∧
    (∀ c ∈ a.columns, c ∈ b.columns) ∧ b.primaryKey = a.primaryKey ∧
    (∀ i ∈ a.indexes, i ∈ b.indexes) ∧ (∀ k ∈ a.foreignKeys, k ∈ b.foreignKeys)

/-! ## The process -/

/-- What the process does to the outside, in program order. -/
inductive Event where
  | SetConfigFile (path : String)
  | ReadInConfig (path : String)
  | ParseLevel (name : String)
  | SetOutput (w : LumberjackLogger)
  | SetLevel (level : Level)
  | GormOpen (dsn : String)
  | DB
  | SetMaxIdleConns (n : Int)
  | SetMaxOpenConns (n : Int)
  | SetConnMaxLifetime (d : Int)
  | AutoMigrate (dst : List Descriptor)
  | NewDefaultPitayaConfig
  | Log (r : Record)
  | Exit (code : Nat)
deriving DecidableEq, Repr

/-- The outcomes of the external collaborators.  `flagF` is the value of `-f`
after `flag.Parse` returned (`none` when the flag was omitted) and `args` what
`flag.Parse` left of the command line (`flag.Args()`); `process` sets both from
the command line.  `environ` is the environment.  The other
fields answer the calls the program makes: an error text (what `%v` prints of
the error), or success.  `quote` is `strconv.Quote`, `schema` the live schema
of the database at the start, `autoMigrate` the error and the schema
`db.AutoMigrate` leaves, and `pitayaConfig` what `%v` prints of the value of
`config.NewDefaultPitayaConfig()`.  `gormOpenPrints` and `autoMigratePrints` are
the lines gorm's own logger prints on standard output during the two calls:
`InitMysql` hands `gorm.Open` the nil `mysqlLogger`, so gorm uses its default
logger, which writes to `os.Stdout` and knows nothing of `Logs.LogLevel`. -/
structure World where
  flagF : Option String
  args : List String
  environ : String → Option String
  quote : String → String
  readInConfig : String → Except String (String → String)
  gormOpen : String → Option String
  dbDB : String → Option String
  schema : Schema
  autoMigrate : Schema → List Descriptor → Option String × Schema
  pitayaConfig : String
  gormOpenPrints : String → List String
  autoMigratePrints : Schema → List Descriptor → List String

/-- The state of the running process: the events so far, the standard logger,
the settings viper holds (`viper.GetString`, empty before the load), the
live schema of the database and the lines on standard output. -/
structure Proc where
  trace : List Event
  logger : Logger
  viper : String → String
  schema : Schema
  stdout : List String

/-- The process at its start. -/
def Proc.start (w : World) : Proc :=
  ⟨[], Logger.std, fun _ => "", w.schema, []⟩

/-- Append an event to the trace. -/
def Proc.emit (p : Proc) (e : Event) : Proc :=
  { p with trace := p.trace ++ [e] }

/-- The call `logrus.Logf(level, ...)`: the record is written to the current
output when the level is enabled, and dropped otherwise. -/
def Logf (level : Level) (msg : String) (p : Proc) : Proc :=
  if p.logger.IsLevelEnabled level then p.emit (.Log ⟨p.logger.Out, level, msg⟩)
  else p

/-- A process that has exited: its exit status and its final state. -/
structure Exited where
  code : Nat
  proc : Proc

/-- The call `logrus.Fatalf`: `Logf(FatalLevel, ...)` followed by `Exit(1)`, which
ends the process with status 1. -/
def Fatalf (msg : String) (p : Proc) : Exited :=
  ⟨1, (Logf .FatalLevel msg p).emit (.Exit 1)⟩

/-- The call `logrus.Infof` (and `logrus.Info`). -/
def Infof (msg : String) (p : Proc) : Proc :=
  Logf .InfoLevel msg p

/-- The result of a run: the exit status, the final process state and, when
`InitMysql` returned, the handle it returned. -/
structure Run where
  exit : Nat
  proc : Proc
  db : Option GormDB

/-- The function `InitMysql`: the handle and the process state when it returns,
or the exit of the process inside it. -/
def InitMysql (w : World) (p : Proc) : Except Exited (GormDB × Proc) :=
  let dsn := p.viper "MySQL"
  let p1 : Proc := { p.emit (.GormOpen dsn) with stdout := p.stdout ++ w.gormOpenPrints dsn }
  match w.gormOpen dsn with
  | some err => .error (Fatalf ("gorm.Open err: " ++ err) p1)
  | none =>
    let db : GormDB := ⟨dsn, SqlDB.fresh⟩
    let p2 := p1.emit .DB
    match w.dbDB dsn with
    | some err => .error (Fatalf ("db.DB err: " ++ err) p2)
    | none =>
      let p3 := p2.emit (.SetMaxIdleConns 10)
      let s1 := db.sqlDB.SetMaxIdleConns 10
      let p4 := p3.emit (.SetMaxOpenConns 100)
      let s2 := s1.SetMaxOpenConns 100
      let p5 := p4.emit (.SetConnMaxLifetime (Hour * 4))
      let s3 := s2.SetConnMaxLifetime (Hour * 4)
      .ok ({ db with sqlDB := s3 }, p5)

/-- The variable `configFile`: the value of flag `f`, default `../etc/db.yaml`. -/
def configFile (w : World) : String :=
  match w.flagF with
  | some path => path
  | none => "../etc/db.yaml"

/-- The function `main` from line 52 on, that is from the return of
`flag.Parse()` to the exit of the process: the exit inside `Fatalf`, or status
0 when `main` returns.  `process` below puts `flag.Parse()` in front of it. -/
def main (w : World) : Run :=
  let p1 := (Proc.start w).emit (.SetConfigFile (configFile w))
  let p2 := p1.emit (.ReadInConfig (configFile w))
  match w.readInConfig (configFile w) with
  | .error err =>
    let e := Fatalf ("Error reading config file: " ++ err) p2
    ⟨e.code, e.proc, none⟩
  | .ok cfg =>
    let p3 : Proc := { p2 with viper := cfg }
    let p4 := p3.emit (.ParseLevel (p3.viper "Logs.LogLevel"))
    match ParseLevel w.quote (p3.viper "Logs.LogLevel") with
    | .error err =>
      let e := Fatalf ("Error parsing log level: " ++ err) p4
      ⟨e.code, e.proc, none⟩
    | .ok level =>
      let logFile := p4.viper "Logs.LogFile"
      let sink : LumberjackLogger := ⟨logFile, 10, 3, 28, true⟩
      let p5 : Proc := { p4.emit (.SetOutput sink) with
        logger := { p4.logger with Out := .lumberjack sink } }
      let p6 : Proc := { p5.emit (.SetLevel level) with
        logger := { p5.logger with Level := level } }
      match InitMysql w p6 with
      | .error e => ⟨e.code, e.proc, none⟩
      | .ok (db, p7) =>
        let p8 := p7.emit (.AutoMigrate [Player])
        let res := w.autoMigrate p8.schema [Player]
        let p9 : Proc := { p8 with
          schema := res.2
          stdout := p8.stdout ++ w.autoMigratePrints p8.schema [Player] }
        match res.1 with
        | some err =>
          let e := Fatalf ("AutoMigrate error: " ++ err) p9
          ⟨e.code, e.proc, some db⟩
        | none =>
          let p10 := p9.emit .NewDefaultPitayaConfig
          let p11 := Infof ("Pitaya server of type db started with config: " ++
            w.pitayaConfig) p10
          let p12 := Infof "Generate database models successfully" p11
          ⟨0, p12, some db⟩

/-! ## The command line -/

/-- How `parseOne` of package flag reads one argument of the command line. -/
inductive Arg where
  | nonFlag
  | terminator
  | bad
  | flag (name : String) (value : Option String)
deriving DecidableEq, Repr

/-- The loop of `parseOne` that looks for the first `=` after the first
character of the name: the characters before it, and the value after it. -/
def splitValue : List Char → List Char × Option (List Char)
  | [] => ([], none)
  | c :: cs =>
    if c = '=' then ([], some cs)
    else ((c :: (splitValue cs).1), (splitValue cs).2)

/-- The head of `parseOne`: an argument shorter than two characters or not
starting with `-` is no flag; `--` ends the flags; a name that is empty or
starts with `-` or `=` is bad syntax; otherwise the argument is a flag, with
the value after `=` when there is one. -/
def classify (s : String) : Arg :=
  match s.data with
  | a :: c :: cs =>
    if a ≠ '-' then .nonFlag
    else if c = '-' ∧ cs = [] then .terminator
    else
      match (if c = '-' then cs else c :: cs) with
      | [] => .bad
      | n :: ns =>
        if n = '-' ∨ n = '=' then .bad
        else .flag (String.mk (n :: (splitValue ns).1)) ((splitValue ns).2.map String.mk)
  | _ => .nonFlag

/-- The result of `flag.Parse()`: it returns, with the value of `-f` if the flag
was given and the arguments left over, or it ends the process (the command
line of the program is parsed with `flag.ExitOnError`). -/
inductive Parsed where
  | returned (f : Option String) (rest : List String)
  | exited (code : Nat)
deriving DecidableEq, Repr

/-- The loop of `FlagSet.Parse` over `parseOne`, for the one flag the program
defines, the string flag `f` (main.go:47).  `f` is the value of the flag so far
and `pending` says that `-f` came without `=` and takes the next argument as
its value.  After `-h` or `-help` the process exits with status 0, after any
other undefined flag, bad syntax or `-f` without a value with status 2.  The
usage text package flag prints on standard error before such an exit is no
record of the logger and is left out. -/
def parseArgs (f : Option String) (pending : Bool) : List String → Parsed
  | [] => if pending then .exited 2 else .returned f []
  | s :: rest =>
    if pending then parseArgs (some s) false rest
    else
      match classify s with
      | .nonFlag => .returned f (s :: rest)
      | .terminator => .returned f rest
      | .bad => .exited 2
      | .flag name value =>
        if name = "f" then
          match value with
          | some v => parseArgs (some v) false rest
          | none => parseArgs f true rest
        else if name = "help" ∨ name = "h" then .exited 0
        else .exited 2

/-- The call `flag.Parse()` on the command line `os.Args[1:]`. -/
def flagParse (argv : List String) : Parsed :=
  parseArgs none false argv

/-- The whole of `func main`: `flag.Parse()` on the command line, which may end
the process by itself, and then the rest of `main` with the value of `-f` it
found. -/
def process (argv : List String) (w : World) : Run :=
  match flagParse argv with
  | .exited code => ⟨code, (Proc.start w).emit (.Exit code), none⟩
  | .returned f rest => main { w with flagF := f, args := rest }

/-! ## Observations on a run -/

/-- The events of a run. -/
def Run.trace (r : Run) : List Event := r.proc.trace

/-- The records written to the log during a trace, in order. -/
def records : List Event → List Record
  | [] => []
  | .Log r :: es => r :: records es
  | _ :: es => records es

/-- The descriptor lists handed to `db.AutoMigrate` during a trace, one entry
for each call. -/
def migrateCalls : List Event → List (List Descriptor)
  | [] => []
  | .AutoMigrate dst :: es => dst :: migrateCalls es
  | _ :: es => migrateCalls es

/-- The phases of the orchestrator that call a collaborator. -/
inductive Phase where
  | loadConfig
  | configureLogs
  | openDb
  | runMigrations
deriving DecidableEq, Repr

/-- Position of a phase in the startup order. -/
def Phase.idx : Phase → Nat
  | .loadConfig => 0
  | .configureLogs => 1
  | .openDb => 2
  | .runMigrations => 3

/-- The phase a collaborator call belongs to; records and the exit belong to
none. -/
def phaseOf : Event → Option Phase
  | .SetConfigFile _ => some .loadConfig
  | .ReadInConfig _ => some .loadConfig
  | .ParseLevel _ => some .configureLogs
  | .SetOutput _ => some .configureLogs
  | .SetLevel _ => some .configureLogs
  | .GormOpen _ => some .openDb
  | .DB => some .openDb
  | .SetMaxIdleConns _ => some .openDb
  | .SetMaxOpenConns _ => some .openDb
  | .SetConnMaxLifetime _ => some .openDb
  | .AutoMigrate _ => some .runMigrations
  | .NewDefaultPitayaConfig => none
  | .Log _ => none
  | .Exit _ => none

/-- Keep the first occurrence of every phase. -/
def firstOccurrences : List Phase → List Phase
  | [] => []
  | p :: ps => p :: (firstOccurrences ps).filter (fun q => decide (q ≠ p))

/-- The phases a trace starts, in the order in which they start. -/
def phasesStarted (tr : List Event) : List Phase :=
  firstOccurrences (tr.filterMap phaseOf)

/-- The events `Fatalf` appends: the fatal record when the level admits it, then
the exit. -/
def fatalEvents (lg : Logger) (msg : String) : List Event :=
  if lg.IsLevelEnabled .FatalLevel then [.Log ⟨lg.Out, .FatalLevel, msg⟩, .Exit 1]
  else [.Exit 1]

/-- The events `Infof` appends: the record when the level admits it. -/
def infoEvents (lg : Logger) (msg : String) : List Event :=
  if lg.IsLevelEnabled .InfoLevel then [.Log ⟨lg.Out, .InfoLevel, msg⟩] else []

/-- The rotating writer `main` installs for a loaded configuration. -/
def sinkOf (cfg : String → String) : LumberjackLogger :=
  ⟨cfg "Logs.LogFile", 10, 3, 28, true⟩

/-- The events of the two phases before the database is opened, when both
succeed. -/
def setupEvents (path : String) (cfg : String → String) (lvl : Level) : List Event :=
  [.SetConfigFile path, .ReadInConfig path, .ParseLevel (cfg "Logs.LogLevel"),
   .SetOutput (sinkOf cfg), .SetLevel lvl]

/-- The events of a pool that was opened and configured. -/
def poolEvents (dsn : String) : List Event :=
  [.GormOpen dsn, .DB, .SetMaxIdleConns 10, .SetMaxOpenConns 100,
   .SetConnMaxLifetime (Hour * 4)]

/-- The pool of a fresh `sql.DB` after the three setters of `InitMysql`. -/
def configuredPool : SqlDB :=
  ((SqlDB.fresh.SetMaxIdleConns 10).SetMaxOpenConns 100).SetConnMaxLifetime (Hour * 4)

/-- The handle `InitMysql` returns. -/
def openedDB (dsn : String) : GormDB :=
  ⟨dsn, configuredPool⟩

/-! ## The migrator and a second run -/

/-- Modelled from the spec: the declared shape of an entity (section 3: a target
table name and its columns with name, type, nullability, default and index or
key membership).  The fields of `models.Player` are declared in a sibling
package that is not part of this repository. -/
structure TableDecl where
  table : String
  columns : List Column
  primaryKey : List String
  indexes : List String
  foreignKeys : List String
deriving DecidableEq, Repr

/-- Modelled from the spec: the table a declared shape creates (section 4.5:
all declared columns, primary keys and indexes). -/
def TableDecl.create (d : TableDecl) : Table :=
  ⟨d.table, d.columns, d.primaryKey, d.indexes, d.foreignKeys⟩

/-- Modelled from the spec: auto-reconcile of one existing table (section 4.5),
the engine being gorm, outside this repository.  Declared columns, indexes and
foreign keys the table lacks are added; nothing the table has is dropped or
altered. -/
def reconcileTable (d : TableDecl) (t : Table) : Table :=
  { t with
    columns := t.columns ++
      d.columns.filter (fun c => decide (c.name ∉ t.columns.map Column.name))
    indexes := t.indexes ++ d.indexes.filter (fun i => decide (i ∉ t.indexes))
    foreignKeys := t.foreignKeys ++
      d.foreignKeys.filter (fun k => decide (k ∉ t.foreignKeys)) }

/-- Modelled from the spec: auto-reconcile of one descriptor (section 4.5), the
engine being gorm, outside this repository.  A table that does not exist is
created with all declared columns and indexes; one that exists is completed. -/
def reconcile (d : TableDecl) (s : Schema) : Schema :=
  if d.table ∈ s.map Table.name then
    s.map (fun t => if t.name = d.table then reconcileTable d t else t)
  else s ++ [d.create]

/-- Modelled from the spec: the migrator `db.AutoMigrate` of gorm, outside this
repository (section 4.5).  A fault of the environment (connectivity,
permission) is reported and leaves the schema alone; otherwise every descriptor
is reconciled in order.  `shape` gives the declared shape of a descriptor. -/
def autoReconcile (shape : Descriptor → TableDecl) (fault : Option String)
    (s : Schema) (dst : List Descriptor) : Option String × Schema :=
  match fault with
  | some err => (some err, s)
  | none => (none, dst.foldl (fun acc d => reconcile (shape d) acc) s)

/-- The second of two runs in a row: the same world, on the schema the first
run left behind. -/
def rerun (w : World) : Run :=
  main { w with schema := (main w).proc.schema }

/-! ## Concrete worlds -/

/-- A configuration file with a reachable database and level `info`. -/
def cfgInfo : String → String := fun key =>
  if key = "MySQL" then "root:pw@tcp(127.0.0.1:3306)/game"
  else if key = "Logs.LogLevel" then "info"
  else if key = "Logs.LogFile" then "/var/log/db_migrate.log"
  else ""

/-- The same configuration with another text under `Logs.LogLevel`. -/
def cfgLevel (level : String) : String → String := fun key =>
  if key = "Logs.LogLevel" then level else cfgInfo key

/-- A world in which every collaborator succeeds and the migrator leaves the
schema as it is. -/
def worldOk : World where
  flagF := none
  args := []
  environ := fun _ => none
  quote := fun s => "\"" ++ s ++ "\""
  readInConfig := fun _ => .ok cfgInfo
  gormOpen := fun _ => none
  dbDB := fun _ => none
  schema := []
  autoMigrate := fun s _ => (none, s)
  pitayaConfig := "defaults"
  gormOpenPrints := fun _ => []
  autoMigratePrints := fun _ _ => []

/-- No configuration file exists, whatever path is asked for; `-f` names
`/nonexistent.yaml`. -/
def worldNoFile : World :=
  { worldOk with
    flagF := some "/nonexistent.yaml"
    readInConfig := fun path => .error ("open " ++ path ++ ": no such file or directory") }

/-- Only the default path `../etc/db.yaml` holds a configuration file. -/
def worldOnlyDefault : World :=
  { worldOk with readInConfig := fun path =>
      if path = "../etc/db.yaml" then .ok cfgInfo else .error "no such file" }

/-- The configuration asks for the level named by `level`. -/
def worldLevel (level : String) : World :=
  { worldOk with readInConfig := fun _ => .ok (cfgLevel level) }

/-- The database server refuses the connection at `gorm.Open`, under the level
named by `level`. -/
def worldRefused (level : String) : World :=
  { worldLevel level with gormOpen := fun _ => some "dial tcp 127.0.0.1:3306: connection refused" }

/-- The database rejects the migration. -/
def worldRejected : World :=
  { worldOk with autoMigrate := fun s _ => (some "Error 1142: ALTER command denied", s) }

/-- The database rejects the migration and gorm's own logger prints the failed
statement on standard output; the level is the one named by `level`. -/
def worldRejectedLoud (level : String) : World :=
  { worldLevel level with
    autoMigrate := fun s _ => (some "Error 1142: ALTER command denied", s)
    autoMigratePrints := fun _ _ => ["[error] Error 1142: ALTER command denied"] }

/-- A declared shape for `Player`. -/
def playerShape : Descriptor → TableDecl := fun _ =>
  ⟨"players", [⟨"id", "bigint", false, none⟩, ⟨"name", "varchar(64)", false, some ""⟩],
    ["id"], ["idx_players_name"], []⟩

/-- A database that already holds a `players` table with a column the
descriptor does not declare, and lacks the declared `name` column. -/
def worldLegacy : World :=
  { worldOk with
    schema := [⟨"players", [⟨"id", "bigint", false, none⟩, ⟨"legacy", "text", true, none⟩],
      ["id"], [], []⟩]
    autoMigrate := autoReconcile playerShape none }

/-! ## The shape of every run -/

theorem Fatalf_trace (msg : String) (p : Proc) :
    (Fatalf msg p).proc.trace = p.trace ++ fatalEvents p.logger msg := by
  unfold Fatalf Logf fatalEvents Proc.emit
  by_cases h : p.logger.IsLevelEnabled .FatalLevel <;> simp [h]

theorem Fatalf_rest (msg : String) (p : Proc) :
    (Fatalf msg p).code = 1 ∧ (Fatalf msg p).proc.logger = p.logger ∧
    (Fatalf msg p).proc.schema = p.schema := by
  unfold Fatalf Logf Proc.emit
  by_cases h : p.logger.IsLevelEnabled .FatalLevel <;> simp [h]

theorem Infof_trace (msg : String) (p : Proc) :
    (Infof msg p).trace = p.trace ++ infoEvents p.logger msg := by
  unfold Infof Logf infoEvents Proc.emit
  by_cases h : p.logger.IsLevelEnabled .InfoLevel <;> simp [h]

theorem Infof_rest (msg : String) (p : Proc) :
    (Infof msg p).logger = p.logger ∧ (Infof msg p).schema = p.schema := by
  unfold Infof Logf Proc.emit
  by_cases h : p.logger.IsLevelEnabled .InfoLevel <;> simp [h]

/-- The run in which `viper.ReadInConfig` fails. -/
theorem main_read_error (w : World) (err : String)
    (h : w.readInConfig (configFile w) = .error err) :
    (main w).exit = 1 ∧ (main w).db = none ∧
    (main w).proc.logger = Logger.std ∧ (main w).proc.schema = w.schema ∧
    (main w).trace = [.SetConfigFile (configFile w), .ReadInConfig (configFile w)] ++
      fatalEvents Logger.std ("Error reading config file: " ++ err) := by
  simp [main, Run.trace, h, Fatalf_trace, Fatalf_rest, Proc.emit, Proc.start]

/-- The run in which `logrus.ParseLevel` fails. -/
theorem main_level_error (w : World) (cfg : String → String) (err : String)
    (h : w.readInConfig (configFile w) = .ok cfg)
    (hl : ParseLevel w.quote (cfg "Logs.LogLevel") = .error err) :
    (main w).exit = 1 ∧ (main w).db = none ∧
    (main w).proc.logger = Logger.std ∧ (main w).proc.schema = w.schema ∧
    (main w).trace = [.SetConfigFile (configFile w), .ReadInConfig (configFile w),
        .ParseLevel (cfg "Logs.LogLevel")] ++
      fatalEvents Logger.std ("Error parsing log level: " ++ err) := by
  simp [main, Run.trace, h, hl, Fatalf_trace, Fatalf_rest, Proc.emit, Proc.start]

/-- The run in which `gorm.Open` fails. -/
theorem main_open_error (w : World) (cfg : String → String) (lvl : Level) (err : String)
    (h : w.readInConfig (configFile w) = .ok cfg)
    (hl : ParseLevel w.quote (cfg "Logs.LogLevel") = .ok lvl)
    (ho : w.gormOpen (cfg "MySQL") = some err) :
    (main w).exit = 1 ∧ (main w).db = none ∧
    (main w).proc.logger = ⟨.lumberjack (sinkOf cfg), lvl⟩ ∧
    (main w).proc.schema = w.schema ∧
    (main w).trace = setupEvents (configFile w) cfg lvl ++ [.GormOpen (cfg "MySQL")] ++
      fatalEvents ⟨.lumberjack (sinkOf cfg), lvl⟩ ("gorm.Open err: " ++ err) := by
  simp [main, InitMysql, Run.trace, h, hl, ho, Fatalf_trace, Fatalf_rest, Proc.emit,
    Proc.start, setupEvents, sinkOf]

/-- The run in which `db.DB` fails. -/
theorem main_handle_error (w : World) (cfg : String → String) (lvl : Level) (err : String)
    (h : w.readInConfig (configFile w) = .ok cfg)
    (hl : ParseLevel w.quote (cfg "Logs.LogLevel") = .ok lvl)
    (ho : w.gormOpen (cfg "MySQL") = none)
    (hd : w.dbDB (cfg "MySQL") = some err) :
    (main w).exit = 1 ∧ (main w).db = none ∧
    (main w).proc.logger = ⟨.lumberjack (sinkOf cfg), lvl⟩ ∧
    (main w).proc.schema = w.schema ∧
    (main w).trace = setupEvents (configFile w) cfg lvl ++
      [.GormOpen (cfg "MySQL"), .DB] ++
      fatalEvents ⟨.lumberjack (sinkOf cfg), lvl⟩ ("db.DB err: " ++ err) := by
  simp [main, InitMysql, Run.trace, h, hl, ho, hd, Fatalf_trace, Fatalf_rest, Proc.emit,
    Proc.start, setupEvents, sinkOf]

/-- The run in which `db.AutoMigrate` fails. -/
theorem main_migrate_error (w : World) (cfg : String → String) (lvl : Level) (err : String)
    (h : w.readInConfig (configFile w) = .ok cfg)
    (hl : ParseLevel w.quote (cfg "Logs.LogLevel") = .ok lvl)
    (ho : w.gormOpen (cfg "MySQL") = none)
    (hd : w.dbDB (cfg "MySQL") = none)
    (hm : (w.autoMigrate w.schema [Player]).1 = some err) :
    (main w).exit = 1 ∧ (main w).db = some (openedDB (cfg "MySQL")) ∧
    (main w).proc.logger = ⟨.lumberjack (sinkOf cfg), lvl⟩ ∧
    (main w).proc.schema = (w.autoMigrate w.schema [Player]).2 ∧
    (main w).trace = setupEvents (configFile w) cfg lvl ++ poolEvents (cfg "MySQL") ++
      [.AutoMigrate [Player]] ++
      fatalEvents ⟨.lumberjack (sinkOf cfg), lvl⟩ ("AutoMigrate error: " ++ err) := by
  simp [main, InitMysql, Run.trace, h, hl, ho, hd, hm, Fatalf_trace, Fatalf_rest, Proc.emit,
    Proc.start, setupEvents, sinkOf, poolEvents, openedDB, configuredPool]

/-- The run in which every collaborator succeeds. -/
theorem main_success (w : World) (cfg : String → String) (lvl : Level)
    (h : w.readInConfig (configFile w) = .ok cfg)
    (hl : ParseLevel w.quote (cfg "Logs.LogLevel") = .ok lvl)
    (ho : w.gormOpen (cfg "MySQL") = none)
    (hd : w.dbDB (cfg "MySQL") = none)
    (hm : (w.autoMigrate w.schema [Player]).1 = none) :
    (main w).exit = 0 ∧ (main w).db = some (openedDB (cfg "MySQL")) ∧
    (main w).proc.logger = ⟨.lumberjack (sinkOf cfg), lvl⟩ ∧
    (main w).proc.schema = (w.autoMigrate w.schema [Player]).2 ∧
    (main w).trace = setupEvents (configFile w) cfg lvl ++ poolEvents (cfg "MySQL") ++
      [.AutoMigrate [Player], .NewDefaultPitayaConfig] ++
      infoEvents ⟨.lumberjack (sinkOf cfg), lvl⟩
        ("Pitaya server of type db started with config: " ++ w.pitayaConfig) ++
      infoEvents ⟨.lumberjack (sinkOf cfg), lvl⟩ "Generate database models successfully" := by
  simp [main, InitMysql, Run.trace, h, hl, ho, hd, hm, Infof_trace, Infof_rest, Proc.emit,
    Proc.start, setupEvents, sinkOf, poolEvents, openedDB, configuredPool]

/-- Every world falls under exactly the runs described above. -/
theorem world_cases (w : World) :
    (∃ err, w.readInConfig (configFile w) = .error err) ∨
    (∃ cfg err, w.readInConfig (configFile w) = .ok cfg ∧
      ParseLevel w.quote (cfg "Logs.LogLevel") = .error err) ∨
    (∃ cfg lvl err, w.readInConfig (configFile w) = .ok cfg ∧
      ParseLevel w.quote (cfg "Logs.LogLevel") = .ok lvl ∧ w.gormOpen (cfg "MySQL") = some err) ∨
    (∃ cfg lvl err, w.readInConfig (configFile w) = .ok cfg ∧
      ParseLevel w.quote (cfg "Logs.LogLevel") = .ok lvl ∧ w.gormOpen (cfg "MySQL") = none ∧
      w.dbDB (cfg "MySQL") = some err) ∨
    (∃ cfg lvl err, w.readInConfig (configFile w) = .ok cfg ∧
      ParseLevel w.quote (cfg "Logs.LogLevel") = .ok lvl ∧ w.gormOpen (cfg "MySQL") = none ∧
      w.dbDB (cfg "MySQL") = none ∧ (w.autoMigrate w.schema [Player]).1 = some err) ∨
    (∃ cfg lvl, w.readInConfig (configFile w) = .ok cfg ∧
      ParseLevel w.quote (cfg "Logs.LogLevel") = .ok lvl ∧ w.gormOpen (cfg "MySQL") = none ∧
      w.dbDB (cfg "MySQL") = none ∧ (w.autoMigrate w.schema [Player]).1 = none) := by
  cases h : w.readInConfig (configFile w) with
  | error err => exact Or.inl ⟨err, rfl⟩
  | ok cfg =>
    cases hl : ParseLevel w.quote (cfg "Logs.LogLevel") with
    | error err => exact Or.inr (Or.inl ⟨cfg, err, rfl, hl⟩)
    | ok lvl =>
      cases ho : w.gormOpen (cfg "MySQL") with
      | some err => exact Or.inr (Or.inr (Or.inl ⟨cfg, lvl, err, rfl, hl, ho⟩))
      | none =>
        cases hd : w.dbDB (cfg "MySQL") with
        | some err => exact Or.inr (Or.inr (Or.inr (Or.inl ⟨cfg, lvl, err, rfl, hl, ho, hd⟩)))
        | none =>
          cases hm : (w.autoMigrate w.schema [Player]).1 with
          | some err =>
            exact Or.inr (Or.inr (Or.inr (Or.inr (Or.inl ⟨cfg, lvl, err, rfl, hl, ho, hd, rfl⟩))))
          | none =>
            exact Or.inr (Or.inr (Or.inr (Or.inr (Or.inr ⟨cfg, lvl, rfl, hl, ho, hd, rfl⟩))))

/-- The events of `Fatalf` belong to no phase. -/
theorem fatalEvents_phase (lg : Logger) (msg : String) :
    (fatalEvents lg msg).filterMap phaseOf = [] := by
  unfold fatalEvents
  split <;> simp [phaseOf]

/-- The events of `Infof` belong to no phase. -/
theorem infoEvents_phase (lg : Logger) (msg : String) :
    (infoEvents lg msg).filterMap phaseOf = [] := by
  unfold infoEvents
  split <;> simp [phaseOf]

/-- The events of `Fatalf` call no collaborator other than the log and exit. -/
theorem fatalEvents_mem (lg : Logger) (msg : String) (e : Event)
    (h : e ∈ fatalEvents lg msg) :
    e = .Exit 1 ∨ e = .Log ⟨lg.Out, .FatalLevel, msg⟩ := by
  unfold fatalEvents at h
  split at h <;> simp at h <;> tauto

/-- The events of `Infof` are informational records only. -/
theorem infoEvents_mem (lg : Logger) (msg : String) (e : Event)
    (h : e ∈ infoEvents lg msg) :
    e = .Log ⟨lg.Out, .InfoLevel, msg⟩ ∧ lg.IsLevelEnabled .InfoLevel = true := by
  unfold infoEvents at h
  split at h <;> simp at h
  exact ⟨h, by assumption⟩

theorem records_append (a b : List Event) : records (a ++ b) = records a ++ records b := by
  induction a with
  | nil => rfl
  | cons e es ih => cases e <;> simp [records, ih]

theorem migrateCalls_append (a b : List Event) :
    migrateCalls (a ++ b) = migrateCalls a ++ migrateCalls b := by
  induction a with
  | nil => rfl
  | cons e es ih => cases e <;> simp [migrateCalls, ih]

theorem records_fatalEvents (lg : Logger) (msg : String) :
    records (fatalEvents lg msg) =
      if lg.IsLevelEnabled .FatalLevel then [⟨lg.Out, .FatalLevel, msg⟩] else [] := by
  unfold fatalEvents
  split <;> simp [records]

theorem records_infoEvents (lg : Logger) (msg : String) :
    records (infoEvents lg msg) =
      if lg.IsLevelEnabled .InfoLevel then [⟨lg.Out, .InfoLevel, msg⟩] else [] := by
  unfold infoEvents
  split <;> simp [records]

theorem mem_records_fatalEvents (lg : Logger) (msg : String) (r : Record)
    (h : r ∈ records (fatalEvents lg msg)) :
    r.out = lg.Out ∧ r = ⟨lg.Out, .FatalLevel, msg⟩ ∧ lg.IsLevelEnabled .FatalLevel = true := by
  rw [records_fatalEvents] at h
  split at h <;> simp at h
  subst h
  exact ⟨rfl, rfl, by assumption⟩

theorem mem_records_infoEvents (lg : Logger) (msg : String) (r : Record)
    (h : r ∈ records (infoEvents lg msg)) :
    r.out = lg.Out ∧ r = ⟨lg.Out, .InfoLevel, msg⟩ ∧ lg.IsLevelEnabled .InfoLevel = true := by
  rw [records_infoEvents] at h
  split at h <;> simp at h
  subst h
  exact ⟨rfl, rfl, by assumption⟩

theorem migrateCalls_fatalEvents (lg : Logger) (msg : String) :
    migrateCalls (fatalEvents lg msg) = [] := by
  unfold fatalEvents
  split <;> simp [migrateCalls]

theorem migrateCalls_infoEvents (lg : Logger) (msg : String) :
    migrateCalls (infoEvents lg msg) = [] := by
  unfold infoEvents
  split <;> simp [migrateCalls]

/-! ## The claims -/

/-- Claim C1: for every outcome of the collaborators the phases `main` starts
form an initial segment of load-config, configure-logs, open-db,
run-migrations, no call of a later phase precedes a call of an earlier one,
and a phase is started only after every earlier phase succeeded: the log is
configured only after `viper.ReadInConfig` succeeded, `gorm.Open` is called
only after the level parsed and `SetOutput` and `SetLevel` ran, and
`db.AutoMigrate` is called only after `gorm.Open` and `db.DB` succeeded and the
three pool limits were set. -/
theorem C1_phases_follow_startup_order (w : World) :
    phasesStarted (main w).trace <+:
      [Phase.loadConfig, Phase.configureLogs, Phase.openDb, Phase.runMigrations] ∧
    ((main w).trace.filterMap phaseOf).Pairwise (fun a b => a.idx ≤ b.idx) ∧
    (Phase.configureLogs ∈ phasesStarted (main w).trace →
      ∃ cfg post, w.readInConfig (configFile w) = .ok cfg ∧
        (main w).trace = [.SetConfigFile (configFile w), .ReadInConfig (configFile w),
          .ParseLevel (cfg "Logs.LogLevel")] ++ post) ∧
    (Phase.openDb ∈ phasesStarted (main w).trace →
      ∃ cfg lvl post, w.readInConfig (configFile w) = .ok cfg ∧
        ParseLevel w.quote (cfg "Logs.LogLevel") = .ok lvl ∧
        (main w).trace = [.SetConfigFile (configFile w), .ReadInConfig (configFile w),
          .ParseLevel (cfg "Logs.LogLevel"), .SetOutput ⟨cfg "Logs.LogFile", 10, 3, 28, true⟩,
          .SetLevel lvl, .GormOpen (cfg "MySQL")] ++ post) ∧
    (Phase.runMigrations ∈ phasesStarted (main w).trace →
      ∃ cfg lvl post, w.readInConfig (configFile w) = .ok cfg ∧
        ParseLevel w.quote (cfg "Logs.LogLevel") = .ok lvl ∧
        w.gormOpen (cfg "MySQL") = none ∧ w.dbDB (cfg "MySQL") = none ∧
        (main w).trace = [.SetConfigFile (configFile w), .ReadInConfig (configFile w),
          .ParseLevel (cfg "Logs.LogLevel"), .SetOutput ⟨cfg "Logs.LogFile", 10, 3, 28, true⟩,
          .SetLevel lvl, .GormOpen (cfg "MySQL"), .DB, .SetMaxIdleConns 10,
          .SetMaxOpenConns 100, .SetConnMaxLifetime (Hour * 4), .AutoMigrate [Player]] ++
          post) := by
  rcases world_cases w with ⟨err, h⟩ | ⟨cfg, err, h, hl⟩ | ⟨cfg, lvl, err, h, hl, ho⟩ |
    ⟨cfg, lvl, err, h, hl, ho, hd⟩ | ⟨cfg, lvl, err, h, hl, ho, hd, hm⟩ |
    ⟨cfg, lvl, h, hl, ho, hd, hm⟩
  · obtain ⟨-, -, -, -, ht⟩ := main_read_error w err h
    simp [ht, phasesStarted, fatalEvents_phase, phaseOf, firstOccurrences, Phase.idx]
  · obtain ⟨-, -, -, -, ht⟩ := main_level_error w cfg err h hl
    simp [ht, phasesStarted, fatalEvents_phase, phaseOf, firstOccurrences, Phase.idx, h]
  · obtain ⟨-, -, -, -, ht⟩ := main_open_error w cfg lvl err h hl ho
    simp [ht, phasesStarted, fatalEvents_phase, phaseOf, firstOccurrences, Phase.idx, h, hl,
      setupEvents, sinkOf]
  · obtain ⟨-, -, -, -, ht⟩ := main_handle_error w cfg lvl err h hl ho hd
    simp [ht, phasesStarted, fatalEvents_phase, phaseOf, firstOccurrences, Phase.idx, h, hl,
      setupEvents, sinkOf]
  · obtain ⟨-, -, -, -, ht⟩ := main_migrate_error w cfg lvl err h hl ho hd hm
    simp [ht, phasesStarted, fatalEvents_phase, phaseOf, firstOccurrences, Phase.idx, h, hl,
      ho, hd, setupEvents, sinkOf, poolEvents]
  · obtain ⟨-, -, -, -, ht⟩ := main_success w cfg lvl h hl ho hd hm
    simp [ht, phasesStarted, fatalEvents_phase, infoEvents_phase, phaseOf, firstOccurrences,
      Phase.idx, h, hl, ho, hd, setupEvents, sinkOf, poolEvents]

/-- Witness of C1: in the world where everything succeeds the migration phase
is reached, and the trace has the stated shape. -/
theorem C1_phases_follow_startup_order_witness :
    Phase.runMigrations ∈ phasesStarted (main worldOk).trace ∧
    ∃ cfg lvl post, worldOk.readInConfig (configFile worldOk) = .ok cfg ∧
      ParseLevel worldOk.quote (cfg "Logs.LogLevel") = .ok lvl ∧
      worldOk.gormOpen (cfg "MySQL") = none ∧ worldOk.dbDB (cfg "MySQL") = none ∧
      (main worldOk).trace = [.SetConfigFile (configFile worldOk),
        .ReadInConfig (configFile worldOk),
        .ParseLevel (cfg "Logs.LogLevel"), .SetOutput ⟨cfg "Logs.LogFile", 10, 3, 28, true⟩,
        .SetLevel lvl, .GormOpen (cfg "MySQL"), .DB, .SetMaxIdleConns 10,
        .SetMaxOpenConns 100, .SetConnMaxLifetime (Hour * 4), .AutoMigrate [Player]] ++
        post :=
  ⟨by decide, (C1_phases_follow_startup_order worldOk).2.2.2.2 (by decide)⟩

/-- Claim C2: when `viper.ReadInConfig` returns an error, or the text under
`Logs.LogLevel` is rejected by `logrus.ParseLevel`, the process exits with a
non-zero status, `gorm.Open` is never called, no handle exists, no migration is
attempted and the schema is left as it was. -/
theorem C2_setup_failure_never_opens_db (w : World)
    (h : (∃ err, w.readInConfig (configFile w) = .error err) ∨
      (∃ cfg err, w.readInConfig (configFile w) = .ok cfg ∧
        ParseLevel w.quote (cfg "Logs.LogLevel") = .error err)) :
    (main w).exit ≠ 0 ∧
    (∀ dsn, Event.GormOpen dsn ∉ (main w).trace) ∧
    Event.DB ∉ (main w).trace ∧
    (main w).db = none ∧
    migrateCalls (main w).trace = [] ∧
    (main w).proc.schema = w.schema := by
  rcases h with ⟨err, h⟩ | ⟨cfg, err, h, hl⟩
  · obtain ⟨he, hdb, -, hs, ht⟩ := main_read_error w err h
    refine ⟨by simp [he], ?_, ?_, hdb, ?_, hs⟩
    · intro dsn hmem
      rw [ht] at hmem
      rcases List.mem_append.1 hmem with hm | hm
      · simp at hm
      · rcases fatalEvents_mem _ _ _ hm with hm | hm <;> simp at hm
    · intro hmem
      rw [ht] at hmem
      rcases List.mem_append.1 hmem with hm | hm
      · simp at hm
      · rcases fatalEvents_mem _ _ _ hm with hm | hm <;> simp at hm
    · simp [ht, migrateCalls_append, migrateCalls_fatalEvents, migrateCalls]
  · obtain ⟨he, hdb, -, hs, ht⟩ := main_level_error w cfg err h hl
    refine ⟨by simp [he], ?_, ?_, hdb, ?_, hs⟩
    · intro dsn hmem
      rw [ht] at hmem
      rcases List.mem_append.1 hmem with hm | hm
      · simp at hm
      · rcases fatalEvents_mem _ _ _ hm with hm | hm <;> simp at hm
    · intro hmem
      rw [ht] at hmem
      rcases List.mem_append.1 hmem with hm | hm
      · simp at hm
      · rcases fatalEvents_mem _ _ _ hm with hm | hm <;> simp at hm
    · simp [ht, migrateCalls_append, migrateCalls_fatalEvents, migrateCalls]

/-- Witness of C2: the level name `chatty` is rejected, and the run with it
exits with status 1 without touching the database. -/
theorem C2_setup_failure_never_opens_db_witness :
    ParseLevel (worldLevel "chatty").quote "chatty" =
      .error "not a valid logrus Level: \"chatty\"" ∧
    ((main (worldLevel "chatty")).exit ≠ 0 ∧
    (∀ dsn, Event.GormOpen dsn ∉ (main (worldLevel "chatty")).trace) ∧
    Event.DB ∉ (main (worldLevel "chatty")).trace ∧
    (main (worldLevel "chatty")).db = none ∧
    migrateCalls (main (worldLevel "chatty")).trace = [] ∧
    (main (worldLevel "chatty")).proc.schema = (worldLevel "chatty").schema) :=
  ⟨by rfl, C2_setup_failure_never_opens_db (worldLevel "chatty")
    (Or.inr ⟨cfgLevel "chatty", "not a valid logrus Level: \"chatty\"", by rfl, by rfl⟩)⟩

/-- Before a fatal exit nothing but the fatal record is written and the pitaya
summary is not built. -/
theorem fatal_run_records (lg : Logger) (msg : String) (pre : List Event)
    (hr : records pre = []) (hn : Event.NewDefaultPitayaConfig ∉ pre) :
    Event.NewDefaultPitayaConfig ∉ pre ++ fatalEvents lg msg ∧
    ∀ r ∈ records (pre ++ fatalEvents lg msg), r.level = .FatalLevel := by
  constructor
  · intro hmem
    rcases List.mem_append.1 hmem with hm | hm
    · exact hn hm
    · rcases fatalEvents_mem _ _ _ hm with hm | hm <;> simp at hm
  · intro r hrm
    rw [records_append, hr, records_fatalEvents] at hrm
    split at hrm <;> simp at hrm
    subst hrm
    rfl

/-- Once `flag.Parse()` has returned, the exit status is 0 exactly when the
configuration was read, the level parsed, `gorm.Open` and `db.DB` succeeded and
`db.AutoMigrate` returned no error, and 1 otherwise; a run with status 1 builds
no pitaya summary and holds no record but the fatal one. -/
theorem main_exit_status (w : World) :
    ((main w).exit = 0 ↔
      ∃ cfg lvl, w.readInConfig (configFile w) = .ok cfg ∧
        ParseLevel w.quote (cfg "Logs.LogLevel") = .ok lvl ∧
        w.gormOpen (cfg "MySQL") = none ∧ w.dbDB (cfg "MySQL") = none ∧
        (w.autoMigrate w.schema [Player]).1 = none) ∧
    ((main w).exit = 0 ∨ (main w).exit = 1) ∧
    ((main w).exit ≠ 0 →
      Event.NewDefaultPitayaConfig ∉ (main w).trace ∧
      ∀ r ∈ records (main w).trace, r.level = .FatalLevel) := by
  rcases world_cases w with ⟨err, h⟩ | ⟨cfg, err, h, hl⟩ | ⟨cfg, lvl, err, h, hl, ho⟩ |
    ⟨cfg, lvl, err, h, hl, ho, hd⟩ | ⟨cfg, lvl, err, h, hl, ho, hd, hm⟩ |
    ⟨cfg, lvl, h, hl, ho, hd, hm⟩
  · obtain ⟨he, -, -, -, ht⟩ := main_read_error w err h
    refine ⟨by simp [he, h], by simp [he], fun _ => ?_⟩
    rw [ht]
    exact fatal_run_records _ _ _ (by simp [records]) (by simp)
  · obtain ⟨he, -, -, -, ht⟩ := main_level_error w cfg err h hl
    refine ⟨by simp [he, h, hl], by simp [he], fun _ => ?_⟩
    rw [ht]
    exact fatal_run_records _ _ _ (by simp [records]) (by simp)
  · obtain ⟨he, -, -, -, ht⟩ := main_open_error w cfg lvl err h hl ho
    refine ⟨by simp [he, h, hl, ho], by simp [he], fun _ => ?_⟩
    rw [ht]
    exact fatal_run_records _ _ _ (by simp [records, setupEvents]) (by simp [setupEvents])
  · obtain ⟨he, -, -, -, ht⟩ := main_handle_error w cfg lvl err h hl ho hd
    refine ⟨by simp [he, h, hl, ho, hd], by simp [he], fun _ => ?_⟩
    rw [ht]
    exact fatal_run_records _ _ _ (by simp [records, setupEvents]) (by simp [setupEvents])
  · obtain ⟨he, -, -, -, ht⟩ := main_migrate_error w cfg lvl err h hl ho hd hm
    refine ⟨by simp [he, h, hl, ho, hd, hm], by simp [he], fun _ => ?_⟩
    rw [ht]
    exact fatal_run_records _ _ _ (by simp [records, setupEvents, poolEvents])
      (by simp [setupEvents, poolEvents])
  · obtain ⟨he, -, -, -, -⟩ := main_success w cfg lvl h hl ho hd hm
    exact ⟨by simp [he, h, hl, ho, hd, hm], by simp [he], fun hne => absurd he hne⟩

/-- The pool of the handle `InitMysql` returns. -/
theorem openedDB_pool (dsn : String) :
    (openedDB dsn).sqlDB.maxIdleConns = 10 ∧ (openedDB dsn).sqlDB.maxOpen = 100 ∧
    (openedDB dsn).sqlDB.maxLifetime = Hour * 4 ∧
    (openedDB dsn).sqlDB.maxLifetime = 14400 * Second ∧
    (openedDB dsn).sqlDB.maxLifetime = 14400 * 1000000000 ∧
    (openedDB dsn).sqlDB.maxLifetime < 2 ^ 63 := by
  have key : configuredPool.maxIdleConns = 10 ∧ configuredPool.maxOpen = 100 ∧
      configuredPool.maxLifetime = Hour * 4 ∧ configuredPool.maxLifetime = 14400 * Second ∧
      configuredPool.maxLifetime = 14400 * 1000000000 ∧
      configuredPool.maxLifetime < 2 ^ 63 := by decide
  exact key

/-- Claim C4: `InitMysql` returns exactly when `gorm.Open` and `db.DB` both
succeed, and the handle it returns, for every connection string under the key
`MySQL`, has a pool with at most 10 idle connections, at most 100 open
connections and a connection lifetime of `time.Hour * 4`, which is 14400
seconds (in nanoseconds, within the range of `int64`); the three setters ran in
that order after `gorm.Open` and `db.DB`. -/
theorem C4_pool_policy (w : World) (p : Proc) :
    ((∃ db q, InitMysql w p = .ok (db, q)) ↔
      (w.gormOpen (p.viper "MySQL") = none ∧ w.dbDB (p.viper "MySQL") = none)) ∧
    ∀ db q, InitMysql w p = .ok (db, q) →
      db.dsn = p.viper "MySQL" ∧
      db.sqlDB.maxIdleConns = 10 ∧ db.sqlDB.maxOpen = 100 ∧
      db.sqlDB.maxLifetime = Hour * 4 ∧ db.sqlDB.maxLifetime = 14400 * Second ∧
      db.sqlDB.maxLifetime = 14400 * 1000000000 ∧ db.sqlDB.maxLifetime < 2 ^ 63 ∧
      q.trace = p.trace ++ [.GormOpen (p.viper "MySQL"), .DB, .SetMaxIdleConns 10,
        .SetMaxOpenConns 100, .SetConnMaxLifetime (Hour * 4)] := by
  cases ho : w.gormOpen (p.viper "MySQL") with
  | some err => simp [InitMysql, ho]
  | none =>
    cases hd : w.dbDB (p.viper "MySQL") with
    | some err => simp [InitMysql, ho, hd]
    | none =>
      refine ⟨by simp [InitMysql, ho, hd], ?_⟩
      intro db q h
      simp only [InitMysql, ho, hd] at h
      injection h with h
      injection h with h1 h2
      subst h1 h2
      obtain ⟨h1, h2, h3, h4, h5, h6⟩ := openedDB_pool (p.viper "MySQL")
      exact ⟨rfl, h1, h2, h3, h4, h5, h6, by simp [Proc.emit]⟩

/-- Witness of C4: with a reachable database `InitMysql` returns, and the pool
of the handle has the three limits. -/
theorem C4_pool_policy_witness :
    InitMysql worldOk ⟨[], Logger.std, cfgInfo, [], []⟩ =
      .ok (openedDB "root:pw@tcp(127.0.0.1:3306)/game",
        ⟨poolEvents "root:pw@tcp(127.0.0.1:3306)/game", Logger.std, cfgInfo, [], []⟩) ∧
    ((openedDB "root:pw@tcp(127.0.0.1:3306)/game").dsn = cfgInfo "MySQL" ∧
      (openedDB "root:pw@tcp(127.0.0.1:3306)/game").sqlDB.maxIdleConns = 10 ∧
      (openedDB "root:pw@tcp(127.0.0.1:3306)/game").sqlDB.maxOpen = 100 ∧
      (openedDB "root:pw@tcp(127.0.0.1:3306)/game").sqlDB.maxLifetime = Hour * 4 ∧
      (openedDB "root:pw@tcp(127.0.0.1:3306)/game").sqlDB.maxLifetime = 14400 * Second ∧
      (openedDB "root:pw@tcp(127.0.0.1:3306)/game").sqlDB.maxLifetime = 14400 * 1000000000 ∧
      (openedDB "root:pw@tcp(127.0.0.1:3306)/game").sqlDB.maxLifetime < 2 ^ 63 ∧
      poolEvents "root:pw@tcp(127.0.0.1:3306)/game" =
        [] ++ [.GormOpen (cfgInfo "MySQL"), .DB, .SetMaxIdleConns 10,
          .SetMaxOpenConns 100, .SetConnMaxLifetime (Hour * 4)]) :=
  ⟨by rfl, (C4_pool_policy worldOk ⟨[], Logger.std, cfgInfo, [], []⟩).2 _ _ (by rfl)⟩

/-- The runs of a world whose configuration loads and whose level parses. -/
theorem world_cases_configured (w : World) (cfg : String → String) :
    (∃ err, w.gormOpen (cfg "MySQL") = some err) ∨
    (∃ err, w.gormOpen (cfg "MySQL") = none ∧ w.dbDB (cfg "MySQL") = some err) ∨
    (∃ err, w.gormOpen (cfg "MySQL") = none ∧ w.dbDB (cfg "MySQL") = none ∧
      (w.autoMigrate w.schema [Player]).1 = some err) ∨
    (w.gormOpen (cfg "MySQL") = none ∧ w.dbDB (cfg "MySQL") = none ∧
      (w.autoMigrate w.schema [Player]).1 = none) := by
  cases ho : w.gormOpen (cfg "MySQL") with
  | some err => exact Or.inl ⟨err, rfl⟩
  | none =>
    cases hd : w.dbDB (cfg "MySQL") with
    | some err => exact Or.inr (Or.inl ⟨err, rfl, rfl⟩)
    | none =>
      cases hm : (w.autoMigrate w.schema [Player]).1 with
      | some err => exact Or.inr (Or.inr (Or.inl ⟨err, rfl, rfl, rfl⟩))
      | none => exact Or.inr (Or.inr (Or.inr ⟨rfl, rfl, rfl⟩))

/-- Claim C5: when the configuration loads and `Logs.LogLevel` parses, the
process-wide logger ends up writing to a lumberjack writer whose file name is
the value of `Logs.LogFile`, with `MaxSize` 10 megabytes (10 MiB), `MaxBackups`
3, `MaxAge` 28 days and compression on, and its level is the parsed level; the
writer and the level were installed by `SetOutput` and `SetLevel`, and every
record of the run goes to that writer. -/
theorem C5_log_sink_configured (w : World) (cfg : String → String) (lvl : Level)
    (h : w.readInConfig (configFile w) = .ok cfg)
    (hl : ParseLevel w.quote (cfg "Logs.LogLevel") = .ok lvl) :
    ∃ sink : LumberjackLogger,
      (main w).proc.logger = ⟨.lumberjack sink, lvl⟩ ∧
      sink.Filename = cfg "Logs.LogFile" ∧
      sink.MaxSize = 10 ∧ sink.max = 10 * 1024 * 1024 ∧
      sink.MaxBackups = 3 ∧ sink.MaxAge = 28 ∧ sink.Compress = true ∧
      Event.SetOutput sink ∈ (main w).trace ∧ Event.SetLevel lvl ∈ (main w).trace ∧
      ∀ r ∈ records (main w).trace, r.out = .lumberjack sink := by
  have hmax : (sinkOf cfg).max = 10 * 1024 * 1024 := by
    unfold LumberjackLogger.max sinkOf
    norm_num
  refine ⟨sinkOf cfg, ?_, rfl, rfl, hmax, rfl, rfl, rfl, ?_⟩
  · rcases world_cases_configured w cfg with ⟨err, ho⟩ | ⟨err, ho, hd⟩ |
      ⟨err, ho, hd, hm⟩ | ⟨ho, hd, hm⟩
    · exact (main_open_error w cfg lvl err h hl ho).2.2.1
    · exact (main_handle_error w cfg lvl err h hl ho hd).2.2.1
    · exact (main_migrate_error w cfg lvl err h hl ho hd hm).2.2.1
    · exact (main_success w cfg lvl h hl ho hd hm).2.2.1
  · rcases world_cases_configured w cfg with ⟨err, ho⟩ | ⟨err, ho, hd⟩ |
      ⟨err, ho, hd, hm⟩ | ⟨ho, hd, hm⟩
    · obtain ⟨-, -, -, -, ht⟩ := main_open_error w cfg lvl err h hl ho
      refine ⟨by simp [ht, setupEvents], by simp [ht, setupEvents], ?_⟩
      intro r hr
      simp only [ht, records_append, setupEvents, records, List.nil_append] at hr
      exact (mem_records_fatalEvents _ _ _ hr).1
    · obtain ⟨-, -, -, -, ht⟩ := main_handle_error w cfg lvl err h hl ho hd
      refine ⟨by simp [ht, setupEvents], by simp [ht, setupEvents], ?_⟩
      intro r hr
      simp only [ht, records_append, setupEvents, records, List.nil_append] at hr
      exact (mem_records_fatalEvents _ _ _ hr).1
    · obtain ⟨-, -, -, -, ht⟩ := main_migrate_error w cfg lvl err h hl ho hd hm
      refine ⟨by simp [ht, setupEvents], by simp [ht, setupEvents], ?_⟩
      intro r hr
      simp only [ht, records_append, setupEvents, poolEvents, records,
        List.nil_append, List.append_nil] at hr
      exact (mem_records_fatalEvents _ _ _ hr).1
    · obtain ⟨-, -, -, -, ht⟩ := main_success w cfg lvl h hl ho hd hm
      refine ⟨by simp [ht, setupEvents], by simp [ht, setupEvents], ?_⟩
      intro r hr
      simp only [ht, records_append, setupEvents, poolEvents, records,
        List.nil_append, List.append_nil, List.mem_append] at hr
      rcases hr with hr | hr <;> exact (mem_records_infoEvents _ _ _ hr).1

/-- Witness of C5: the configuration with level `info` and log file
`/var/log/db_migrate.log`. -/
theorem C5_log_sink_configured_witness :
    ∃ sink : LumberjackLogger,
      (main worldOk).proc.logger = ⟨.lumberjack sink, .InfoLevel⟩ ∧
      sink.Filename = cfgInfo "Logs.LogFile" ∧
      sink.MaxSize = 10 ∧ sink.max = 10 * 1024 * 1024 ∧
      sink.MaxBackups = 3 ∧ sink.MaxAge = 28 ∧ sink.Compress = true ∧
      Event.SetOutput sink ∈ (main worldOk).trace ∧
      Event.SetLevel .InfoLevel ∈ (main worldOk).trace ∧
      ∀ r ∈ records (main worldOk).trace, r.out = .lumberjack sink :=
  C5_log_sink_configured worldOk cfgInfo .InfoLevel (by rfl) (by rfl)

/-- No configuration file is named by the events of `Fatalf` and `Infof`. -/
theorem config_events_only_first (lg : Logger) (msg : String) (e : Event)
    (h : e ∈ fatalEvents lg msg ∨ e ∈ infoEvents lg msg) :
    (∀ p, e ≠ .SetConfigFile p) ∧ (∀ p, e ≠ .ReadInConfig p) := by
  rcases h with h | h
  · rcases fatalEvents_mem _ _ _ h with h | h <;> subst h <;> simp
  · rcases infoEvents_mem _ _ _ h with ⟨h, -⟩
    subst h
    simp

/-- The configuration file named in a run is the value of `configFile`. -/
theorem config_events (w : World) (p : String) :
    (main w).trace.take 2 = [.SetConfigFile (configFile w), .ReadInConfig (configFile w)] ∧
    (Event.SetConfigFile p ∈ (main w).trace ↔ p = configFile w) ∧
    (Event.ReadInConfig p ∈ (main w).trace ↔ p = configFile w) := by
  have hf := fun lg msg e h => (config_events_only_first lg msg e (Or.inl h))
  have hi := fun lg msg e h => (config_events_only_first lg msg e (Or.inr h))
  rcases world_cases w with ⟨err, h⟩ | ⟨cfg, err, h, hl⟩ | ⟨cfg, lvl, err, h, hl, ho⟩ |
    ⟨cfg, lvl, err, h, hl, ho, hd⟩ | ⟨cfg, lvl, err, h, hl, ho, hd, hm⟩ |
    ⟨cfg, lvl, h, hl, ho, hd, hm⟩
  · obtain ⟨-, -, -, -, ht⟩ := main_read_error w err h
    refine ⟨by simp [ht], ?_, ?_⟩ <;>
    · simp only [ht, List.mem_append]
      constructor
      · rintro (hm | hm)
        · simpa using hm
        · first
          | exact absurd rfl ((hf _ _ _ hm).1 p)
          | exact absurd rfl ((hf _ _ _ hm).2 p)
      · rintro rfl
        simp
  · obtain ⟨-, -, -, -, ht⟩ := main_level_error w cfg err h hl
    refine ⟨by simp [ht], ?_, ?_⟩ <;>
    · simp only [ht, List.mem_append]
      constructor
      · rintro (hm | hm)
        · simpa using hm
        · first
          | exact absurd rfl ((hf _ _ _ hm).1 p)
          | exact absurd rfl ((hf _ _ _ hm).2 p)
      · rintro rfl
        simp
  · obtain ⟨-, -, -, -, ht⟩ := main_open_error w cfg lvl err h hl ho
    refine ⟨by simp [ht, setupEvents], ?_, ?_⟩ <;>
    · simp only [ht, List.mem_append, setupEvents]
      constructor
      · rintro ((hm | hm) | hm)
        · simpa using hm
        · simp at hm
        · first
          | exact absurd rfl ((hf _ _ _ hm).1 p)
          | exact absurd rfl ((hf _ _ _ hm).2 p)
      · rintro rfl
        simp
  · obtain ⟨-, -, -, -, ht⟩ := main_handle_error w cfg lvl err h hl ho hd
    refine ⟨by simp [ht, setupEvents], ?_, ?_⟩ <;>
    · simp only [ht, List.mem_append, setupEvents]
      constructor
      · rintro ((hm | hm) | hm)
        · simpa using hm
        · simp at hm
        · first
          | exact absurd rfl ((hf _ _ _ hm).1 p)
          | exact absurd rfl ((hf _ _ _ hm).2 p)
      · rintro rfl
        simp
  · obtain ⟨-, -, -, -, ht⟩ := main_migrate_error w cfg lvl err h hl ho hd hm
    refine ⟨by simp [ht, setupEvents], ?_, ?_⟩ <;>
    · simp only [ht, List.mem_append, setupEvents, poolEvents]
      constructor
      · rintro (((hm | hm) | hm) | hm)
        · simpa using hm
        · simp at hm
        · simp at hm
        · first
          | exact absurd rfl ((hf _ _ _ hm).1 p)
          | exact absurd rfl ((hf _ _ _ hm).2 p)
      · rintro rfl
        simp
  · obtain ⟨-, -, -, -, ht⟩ := main_success w cfg lvl h hl ho hd hm
    refine ⟨by simp [ht, setupEvents], ?_, ?_⟩ <;>
    · simp only [ht, List.mem_append, setupEvents, poolEvents]
      constructor
      · rintro ((((hm | hm) | hm) | hm) | hm)
        · simpa using hm
        · simp at hm
        · simp at hm
        · first
          | exact absurd rfl ((hi _ _ _ hm).1 p)
          | exact absurd rfl ((hi _ _ _ hm).2 p)
        · first
          | exact absurd rfl ((hi _ _ _ hm).1 p)
          | exact absurd rfl ((hi _ _ _ hm).2 p)
      · rintro rfl
        simp

/-- The levels that let an informational record through. -/
theorem info_enabled_iff (out : Output) (lvl : Level) :
    (Logger.mk out lvl).IsLevelEnabled .InfoLevel = true ↔
      (lvl = .InfoLevel ∨ lvl = .DebugLevel ∨ lvl = .TraceLevel) := by
  cases lvl <;> simp [Logger.IsLevelEnabled, Level.toNat]

/-- The only level that drops a fatal record. -/
theorem fatal_enabled_iff (out : Output) (lvl : Level) :
    (Logger.mk out lvl).IsLevelEnabled .FatalLevel = true ↔ lvl ≠ .PanicLevel := by
  cases lvl <;> simp [Logger.IsLevelEnabled, Level.toNat]

/-- Counterexample to C7 as stated: `error` is an accepted level, the run with
it succeeds with status 0, and no line at all is written to the log. -/
theorem C7_counterexample :
    ParseLevel (worldLevel "error").quote "error" = .ok .ErrorLevel ∧
    (main (worldLevel "error")).exit = 0 ∧
    records (main (worldLevel "error")).trace = [] :=
  ⟨by rfl, by decide, by decide⟩

/-- Claim C7, amended: on a successful run the two informational lines (the
pitaya summary, then the completion line) are written, to the rotating writer
and in that order, exactly when the parsed level is `info`, `debug` or `trace`;
under `panic`, `fatal`, `error` and `warn` the severity filter drops both and
the run writes nothing. -/
theorem C7_info_lines_when_level_admits (w : World) (cfg : String → String) (lvl : Level)
    (h : w.readInConfig (configFile w) = .ok cfg)
    (hl : ParseLevel w.quote (cfg "Logs.LogLevel") = .ok lvl)
    (ho : w.gormOpen (cfg "MySQL") = none)
    (hd : w.dbDB (cfg "MySQL") = none)
    (hm : (w.autoMigrate w.schema [Player]).1 = none) :
    (main w).exit = 0 ∧
    records (main w).trace =
      (if lvl = .InfoLevel ∨ lvl = .DebugLevel ∨ lvl = .TraceLevel then
        [⟨.lumberjack ⟨cfg "Logs.LogFile", 10, 3, 28, true⟩, .InfoLevel,
            "Pitaya server of type db started with config: " ++ w.pitayaConfig⟩,
         ⟨.lumberjack ⟨cfg "Logs.LogFile", 10, 3, 28, true⟩, .InfoLevel,
            "Generate database models successfully"⟩]
      else []) := by
  obtain ⟨he, -, -, -, ht⟩ := main_success w cfg lvl h hl ho hd hm
  refine ⟨he, ?_⟩
  have h1 : records (setupEvents (configFile w) cfg lvl) = [] := by
    simp [records, setupEvents]
  have h2 : records (poolEvents (cfg "MySQL")) = [] := by simp [records, poolEvents]
  have h3 : records [Event.AutoMigrate [Player], Event.NewDefaultPitayaConfig] = [] := by
    simp [records]
  rw [ht, records_append, records_append, records_append, records_append, h1, h2, h3,
    records_infoEvents, records_infoEvents]
  by_cases hc : lvl = .InfoLevel ∨ lvl = .DebugLevel ∨ lvl = .TraceLevel
  · have hi := (info_enabled_iff (.lumberjack (sinkOf cfg)) lvl).2 hc
    rw [if_pos hi, if_pos hi, if_pos hc]
    rfl
  · have hi : ¬ (Logger.mk (.lumberjack (sinkOf cfg)) lvl).IsLevelEnabled .InfoLevel = true :=
      fun hi => hc ((info_enabled_iff _ lvl).1 hi)
    rw [if_neg hi, if_neg hi, if_neg hc]
    rfl

/-- Witness of C7: under level `info` both lines are written, in order. -/
theorem C7_info_lines_when_level_admits_witness :
    (main worldOk).exit = 0 ∧
    records (main worldOk).trace =
      (if Level.InfoLevel = .InfoLevel ∨ Level.InfoLevel = .DebugLevel ∨
          Level.InfoLevel = .TraceLevel then
        [⟨.lumberjack ⟨cfgInfo "Logs.LogFile", 10, 3, 28, true⟩, .InfoLevel,
            "Pitaya server of type db started with config: " ++ worldOk.pitayaConfig⟩,
         ⟨.lumberjack ⟨cfgInfo "Logs.LogFile", 10, 3, 28, true⟩, .InfoLevel,
            "Generate database models successfully"⟩]
      else []) :=
  C7_info_lines_when_level_admits worldOk cfgInfo .InfoLevel (by rfl) (by rfl) (by rfl)
    (by rfl) (by rfl)

theorem reconcileTable_name (d : TableDecl) (t : Table) :
    (reconcileTable d t).name = t.name := rfl

/-- What a list lacks of another list is, once added, lacked no more. -/
theorem filter_missing_nil {α β : Type} [DecidableEq β] (f : α → β) (have_ decl : List α) :
    decl.filter (fun c => decide (f c ∉
      (have_ ++ decl.filter (fun c => decide (f c ∉ have_.map f))).map f)) = [] := by
  rw [List.filter_eq_nil_iff]
  intro c hc
  simp only [decide_eq_true_eq, not_not, List.map_append, List.mem_append]
  by_cases hin : f c ∈ have_.map f
  · exact Or.inl hin
  · exact Or.inr (List.mem_map.2 ⟨c, List.mem_filter.2 ⟨hc, by simpa using hin⟩, rfl⟩)

/-- Nothing is lacked of a list by itself. -/
theorem filter_self_nil {α β : Type} [DecidableEq β] (f : α → β) (decl : List α) :
    decl.filter (fun c => decide (f c ∉ decl.map f)) = [] := by
  rw [List.filter_eq_nil_iff]
  intro c hc
  simpa using ⟨c, hc, rfl⟩

/-- Reconciling a table a second time changes nothing. -/
theorem reconcileTable_idem (d : TableDecl) (t : Table) :
    reconcileTable d (reconcileTable d t) = reconcileTable d t := by
  have hc := filter_missing_nil Column.name t.columns d.columns
  have hi := filter_missing_nil (fun i : String => i) t.indexes d.indexes
  have hk := filter_missing_nil (fun k : String => k) t.foreignKeys d.foreignKeys
  simp only [List.map_id_fun, id_eq, List.map_id_fun', List.map_id] at hi hk
  unfold reconcileTable
  simp only [hc, hi, hk, List.append_nil]

/-- A freshly created table is already reconciled. -/
theorem reconcileTable_created (d : TableDecl) :
    reconcileTable d d.create = d.create := by
  have hc := filter_self_nil Column.name d.columns
  have hi := filter_self_nil (fun i : String => i) d.indexes
  have hk := filter_self_nil (fun k : String => k) d.foreignKeys
  simp only [List.map_id_fun, id_eq, List.map_id_fun', List.map_id] at hi hk
  unfold reconcileTable TableDecl.create
  simp only [hc, hi, hk, List.append_nil]

/-- Reconciling a descriptor a second time changes nothing. -/
theorem reconcile_idem (d : TableDecl) (s : Schema) :
    reconcile d (reconcile d s) = reconcile d s := by
  by_cases hin : d.table ∈ s.map Table.name
  · have hin2 : d.table ∈ (s.map (fun t =>
        if t.name = d.table then reconcileTable d t else t)).map Table.name := by
      obtain ⟨t, ht, hn⟩ := List.mem_map.1 hin
      refine List.mem_map.2 ⟨_, List.mem_map.2 ⟨t, ht, rfl⟩, ?_⟩
      rw [if_pos hn, reconcileTable_name, hn]
    have e1 : reconcile d s =
        s.map (fun t => if t.name = d.table then reconcileTable d t else t) := by
      unfold reconcile
      rw [if_pos hin]
    have e2 : reconcile d (s.map (fun t => if t.name = d.table then reconcileTable d t else t))
        = (s.map (fun t => if t.name = d.table then reconcileTable d t else t)).map
          (fun t => if t.name = d.table then reconcileTable d t else t) := by
      unfold reconcile
      rw [if_pos hin2]
    rw [e1, e2, List.map_map]
    apply List.map_congr_left
    intro t _
    by_cases hn : t.name = d.table
    · simp [hn, reconcileTable_name, reconcileTable_idem]
    · simp [hn]
  · have hin2 : d.table ∈ (s ++ [d.create]).map Table.name := by
      simp [TableDecl.create]
    have hs : s.map (fun t => if t.name = d.table then reconcileTable d t else t) = s := by
      conv_rhs => rw [← List.map_id s]
      apply List.map_congr_left
      intro t ht
      have : t.name ≠ d.table := fun hn => hin (List.mem_map.2 ⟨t, ht, hn⟩)
      simp [this]
    have e1 : reconcile d s = s ++ [d.create] := by
      unfold reconcile
      rw [if_neg hin]
    have e2 : reconcile d (s ++ [d.create]) =
        (s ++ [d.create]).map
          (fun t => if t.name = d.table then reconcileTable d t else t) := by
      unfold reconcile
      rw [if_pos hin2]
    have hn : d.create.name = d.table := rfl
    rw [e1, e2, List.map_append, hs, List.map_cons, List.map_nil, if_pos hn,
      reconcileTable_created]

/-- Reconciling a descriptor drops no table, column, key or index. -/
theorem reconcile_preserved (d : TableDecl) (s : Schema) :
    Schema.Preserved s (reconcile d s) := by
  intro a ha
  by_cases hin : d.table ∈ s.map Table.name
  · have e1 : reconcile d s =
        s.map (fun t => if t.name = d.table then reconcileTable d t else t) := by
      unfold reconcile
      rw [if_pos hin]
    rw [e1]
    refine ⟨if a.name = d.table then reconcileTable d a else a,
      List.mem_map.2 ⟨a, ha, rfl⟩, ?_⟩
    by_cases hn : a.name = d.table
    · rw [if_pos hn]
      exact ⟨rfl, fun c hc => List.mem_append.2 (Or.inl hc), rfl,
        fun i hi => List.mem_append.2 (Or.inl hi),
        fun k hk => List.mem_append.2 (Or.inl hk)⟩
    · rw [if_neg hn]
      exact ⟨rfl, fun _ h => h, rfl, fun _ h => h, fun _ h => h⟩
  · have e1 : reconcile d s = s ++ [d.create] := by
      unfold reconcile
      rw [if_neg hin]
    rw [e1]
    exact ⟨a, List.mem_append.2 (Or.inl ha), rfl, fun _ h => h, rfl, fun _ h => h,
      fun _ h => h⟩

/-- A run that exits with status 0 is one in which every collaborator
succeeded. -/
theorem success_of_exit_zero (w : World) (hok : (main w).exit = 0) :
    ∃ cfg lvl, w.readInConfig (configFile w) = .ok cfg ∧
      ParseLevel w.quote (cfg "Logs.LogLevel") = .ok lvl ∧
      w.gormOpen (cfg "MySQL") = none ∧ w.dbDB (cfg "MySQL") = none ∧
      (w.autoMigrate w.schema [Player]).1 = none := by
  rcases world_cases w with ⟨err, h⟩ | ⟨cfg, err, h, hl⟩ | ⟨cfg, lvl, err, h, hl, ho⟩ |
    ⟨cfg, lvl, err, h, hl, ho, hd⟩ | ⟨cfg, lvl, err, h, hl, ho, hd, hm⟩ |
    ⟨cfg, lvl, h, hl, ho, hd, hm⟩
  · have := (main_read_error w err h).1; omega
  · have := (main_level_error w cfg err h hl).1; omega
  · have := (main_open_error w cfg lvl err h hl ho).1; omega
  · have := (main_handle_error w cfg lvl err h hl ho hd).1; omega
  · have := (main_migrate_error w cfg lvl err h hl ho hd hm).1; omega
  · exact ⟨cfg, lvl, h, hl, ho, hd, hm⟩

/-- The schema after a run is the one before it or the one the single
`db.AutoMigrate` call left. -/
theorem schema_after_run (w : World) :
    (main w).proc.schema = w.schema ∨
    (main w).proc.schema = (w.autoMigrate w.schema [Player]).2 := by
  rcases world_cases w with ⟨err, h⟩ | ⟨cfg, err, h, hl⟩ | ⟨cfg, lvl, err, h, hl, ho⟩ |
    ⟨cfg, lvl, err, h, hl, ho, hd⟩ | ⟨cfg, lvl, err, h, hl, ho, hd, hm⟩ |
    ⟨cfg, lvl, h, hl, ho, hd, hm⟩
  · exact Or.inl (main_read_error w err h).2.2.2.1
  · exact Or.inl (main_level_error w cfg err h hl).2.2.2.1
  · exact Or.inl (main_open_error w cfg lvl err h hl ho).2.2.2.1
  · exact Or.inl (main_handle_error w cfg lvl err h hl ho hd).2.2.2.1
  · exact Or.inr (main_migrate_error w cfg lvl err h hl ho hd hm).2.2.2.1
  · exact Or.inr (main_success w cfg lvl h hl ho hd hm).2.2.2.1

theorem Schema.Preserved.refl (s : Schema) : Schema.Preserved s s :=
  fun a ha => ⟨a, ha, rfl, fun _ h => h, rfl, fun _ h => h, fun _ h => h⟩

/-- Claim C10: with the migrator behaving as section 4.5 describes it, a second
run in a row after a successful first run, with the same configuration and
the same environment, exits with status 0 like the first and leaves the schema
exactly as the first run left it; it issues one `db.AutoMigrate` call, for
`[Player]`, and neither run drops a table, a column or an index: the schema after
a run is the one before it or the result of that single additive call. -/
theorem C10_second_run_is_idempotent (w : World) (shape : Descriptor → TableDecl)
    (fault : Option String)
    (hengine : w.autoMigrate = autoReconcile shape fault)
    (hok : (main w).exit = 0) :
    (rerun w).exit = 0 ∧
    (rerun w).proc.schema = (main w).proc.schema ∧
    (main w).proc.schema = reconcile (shape Player) w.schema ∧
    migrateCalls (rerun w).trace = [[Player]] ∧
    Schema.Preserved w.schema (main w).proc.schema ∧
    Schema.Preserved (main w).proc.schema (rerun w).proc.schema := by
  obtain ⟨cfg, lvl, h, hl, ho, hd, hm⟩ := success_of_exit_zero w hok
  have hf : fault = none := by
    rw [hengine] at hm
    cases fault with
    | none => rfl
    | some err => simp [autoReconcile] at hm
  subst hf
  have hs1 : (main w).proc.schema = reconcile (shape Player) w.schema := by
    rw [(main_success w cfg lvl h hl ho hd hm).2.2.2.1, hengine]
    rfl
  have hm2 : (({ w with schema := (main w).proc.schema } : World).autoMigrate
      (main w).proc.schema [Player]).1 = none := by
    show (w.autoMigrate (main w).proc.schema [Player]).1 = none
    rw [hengine]
    rfl
  obtain ⟨he2, -, -, hs2, ht2⟩ :=
    main_success { w with schema := (main w).proc.schema } cfg lvl h hl ho hd hm2
  have hs2 : (rerun w).proc.schema = (main w).proc.schema := by
    show (main { w with schema := (main w).proc.schema }).proc.schema = _
    rw [hs2]
    show (w.autoMigrate (main w).proc.schema [Player]).2 = _
    rw [hengine, hs1]
    exact reconcile_idem (shape Player) w.schema
  refine ⟨he2, hs2, hs1, ?_, ?_, ?_⟩
  · show migrateCalls (main { w with schema := (main w).proc.schema }).trace = _
    rw [ht2]
    simp [migrateCalls_append, migrateCalls_infoEvents, migrateCalls, setupEvents, poolEvents]
  · rw [hs1]
    exact reconcile_preserved _ _
  · rw [hs2]
    exact Schema.Preserved.refl _

/-- Witness of C10: a database with a legacy `players` table.  The first run
adds the declared `name` column and the index and keeps the `legacy` column;
the second run exits with status 0 and leaves that schema as it is. -/
theorem C10_second_run_is_idempotent_witness :
    (main worldLegacy).exit = 0 ∧
    (main worldLegacy).proc.schema =
      [⟨"players", [⟨"id", "bigint", false, none⟩, ⟨"legacy", "text", true, none⟩,
        ⟨"name", "varchar(64)", false, some ""⟩], ["id"], ["idx_players_name"], []⟩] ∧
    ((rerun worldLegacy).exit = 0 ∧
    (rerun worldLegacy).proc.schema = (main worldLegacy).proc.schema ∧
    (main worldLegacy).proc.schema = reconcile (playerShape Player) worldLegacy.schema ∧
    migrateCalls (rerun worldLegacy).trace = [[Player]] ∧
    Schema.Preserved worldLegacy.schema (main worldLegacy).proc.schema ∧
    Schema.Preserved (main worldLegacy).proc.schema (rerun worldLegacy).proc.schema) :=
  ⟨by decide, by decide,
    C10_second_run_is_idempotent worldLegacy playerShape none (by rfl) (by decide)⟩

/-! ## The whole process -/

/-- When `flag.Parse()` ends the process nothing else happens. -/
theorem process_exited (argv : List String) (w : World) (code : Nat)
    (h : flagParse argv = .exited code) :
    process argv w = ⟨code, (Proc.start w).emit (.Exit code), none⟩ := by
  simp [process, h]

/-- When `flag.Parse()` returns, the rest of `main` runs with the value of `-f`. -/
theorem process_returned (argv : List String) (w : World) (f : Option String)
    (rest : List String) (h : flagParse argv = .returned f rest) :
    process argv w = main { w with flagF := f, args := rest } := by
  simp [process, h]

/-- The path of the configuration file once `flag.Parse()` has returned. -/
theorem configFile_parsed (w : World) (f : Option String) (rest : List String) :
    configFile { w with flagF := f, args := rest } = f.getD "../etc/db.yaml" := by
  cases f <;> rfl

/-- The call `Fatalf` leaves the settings and standard output alone. -/
theorem Fatalf_channels (msg : String) (p : Proc) :
    (Fatalf msg p).proc.viper = p.viper ∧ (Fatalf msg p).proc.stdout = p.stdout := by
  unfold Fatalf Logf Proc.emit
  by_cases h : p.logger.IsLevelEnabled .FatalLevel <;> simp [h]

/-- The call `Infof` leaves the settings and standard output alone. -/
theorem Infof_channels (msg : String) (p : Proc) :
    (Infof msg p).viper = p.viper ∧ (Infof msg p).stdout = p.stdout := by
  unfold Infof Logf Proc.emit
  by_cases h : p.logger.IsLevelEnabled .InfoLevel <;> simp [h]

/-- Standard output when the configuration cannot be read. -/
theorem main_read_error_stdout (w : World) (err : String)
    (h : w.readInConfig (configFile w) = .error err) :
    (main w).proc.stdout = [] := by
  simp [main, h, Fatalf_channels, Proc.emit, Proc.start]

/-- Standard output and settings when the level does not parse. -/
theorem main_level_error_stdout (w : World) (cfg : String → String) (err : String)
    (h : w.readInConfig (configFile w) = .ok cfg)
    (hl : ParseLevel w.quote (cfg "Logs.LogLevel") = .error err) :
    (main w).proc.stdout = [] ∧ (main w).proc.viper = cfg := by
  simp [main, h, hl, Fatalf_channels, Proc.emit, Proc.start]

/-- Standard output and settings when `gorm.Open` fails. -/
theorem main_open_error_stdout (w : World) (cfg : String → String) (lvl : Level)
    (err : String)
    (h : w.readInConfig (configFile w) = .ok cfg)
    (hl : ParseLevel w.quote (cfg "Logs.LogLevel") = .ok lvl)
    (ho : w.gormOpen (cfg "MySQL") = some err) :
    (main w).proc.stdout = w.gormOpenPrints (cfg "MySQL") ∧ (main w).proc.viper = cfg := by
  simp [main, InitMysql, h, hl, ho, Fatalf_channels, Proc.emit, Proc.start]

/-- Standard output and settings when `db.DB` fails. -/
theorem main_handle_error_stdout (w : World) (cfg : String → String) (lvl : Level)
    (err : String)
    (h : w.readInConfig (configFile w) = .ok cfg)
    (hl : ParseLevel w.quote (cfg "Logs.LogLevel") = .ok lvl)
    (ho : w.gormOpen (cfg "MySQL") = none)
    (hd : w.dbDB (cfg "MySQL") = some err) :
    (main w).proc.stdout = w.gormOpenPrints (cfg "MySQL") ∧ (main w).proc.viper = cfg := by
  simp [main, InitMysql, h, hl, ho, hd, Fatalf_channels, Proc.emit, Proc.start]

/-- Standard output and settings when `db.AutoMigrate` fails. -/
theorem main_migrate_error_stdout (w : World) (cfg : String → String) (lvl : Level)
    (err : String)
    (h : w.readInConfig (configFile w) = .ok cfg)
    (hl : ParseLevel w.quote (cfg "Logs.LogLevel") = .ok lvl)
    (ho : w.gormOpen (cfg "MySQL") = none)
    (hd : w.dbDB (cfg "MySQL") = none)
    (hm : (w.autoMigrate w.schema [Player]).1 = some err) :
    (main w).proc.stdout =
      w.gormOpenPrints (cfg "MySQL") ++ w.autoMigratePrints w.schema [Player] ∧
    (main w).proc.viper = cfg := by
  simp [main, InitMysql, h, hl, ho, hd, hm, Fatalf_channels, Proc.emit, Proc.start]

/-- Standard output and settings when every collaborator succeeds. -/
theorem main_success_stdout (w : World) (cfg : String → String) (lvl : Level)
    (h : w.readInConfig (configFile w) = .ok cfg)
    (hl : ParseLevel w.quote (cfg "Logs.LogLevel") = .ok lvl)
    (ho : w.gormOpen (cfg "MySQL") = none)
    (hd : w.dbDB (cfg "MySQL") = none)
    (hm : (w.autoMigrate w.schema [Player]).1 = none) :
    (main w).proc.stdout =
      w.gormOpenPrints (cfg "MySQL") ++ w.autoMigratePrints w.schema [Player] ∧
    (main w).proc.viper = cfg := by
  simp [main, InitMysql, h, hl, ho, hd, hm, Infof_channels, Proc.emit, Proc.start]

/-- The environment is not consulted. -/
theorem main_environ (w : World) (e : String → Option String) :
    main { w with environ := e } = main w := rfl

/-- The loader is consulted for the one path `configFile` only. -/
theorem main_readInConfig_congr (w : World) (r : String → Except String (String → String))
    (h : r (configFile w) = w.readInConfig (configFile w)) :
    main { w with readInConfig := r } = main w := by
  have hc : configFile { w with readInConfig := r } = configFile w := rfl
  unfold main
  simp only [hc, h]
  rfl

/-- The migrator is consulted for the live schema and the list `[Player]` only. -/
theorem main_autoMigrate_congr (w : World)
    (m : Schema → List Descriptor → Option String × Schema)
    (h : m w.schema [Player] = w.autoMigrate w.schema [Player]) :
    main { w with autoMigrate := m } = main w := by
  have hc : configFile { w with autoMigrate := m } = configFile w := rfl
  unfold main
  simp only [hc]
  cases hr : w.readInConfig (configFile w) with
  | error err => rfl
  | ok cfg =>
    simp only []
    cases hl : ParseLevel w.quote (cfg "Logs.LogLevel") with
    | error err => rfl
    | ok lvl =>
      simp only [Proc.emit, Proc.start, InitMysql]
      cases ho : w.gormOpen (cfg "MySQL") with
      | some err => rfl
      | none =>
        cases hd : w.dbDB (cfg "MySQL") with
        | some err => rfl
        | none => simp only [h]

/-- The exit status `flag.Parse()` chooses is 0 or 2. -/
theorem parseArgs_exit_code (args : List String) :
    ∀ (f : Option String) (pending : Bool) (code : Nat),
      parseArgs f pending args = .exited code → code = 0 ∨ code = 2 := by
  induction args with
  | nil =>
    intro f pending code h
    cases pending <;> simp [parseArgs] at h
    exact Or.inr h.symm
  | cons s rest ih =>
    intro f pending code h
    cases pending with
    | true => exact ih _ _ _ (by simpa [parseArgs] using h)
    | false =>
      simp only [parseArgs, Bool.false_eq_true, if_false] at h
      cases hc : classify s with
      | nonFlag => simp [hc] at h
      | terminator => simp [hc] at h
      | bad =>
        simp [hc] at h
        exact Or.inr h.symm
      | flag name value =>
        simp only [hc] at h
        by_cases hn : name = "f"
        · simp only [hn, if_true] at h
          cases value with
          | some v => exact ih _ _ _ h
          | none => exact ih _ _ _ h
        · simp only [hn, if_false] at h
          by_cases hh : name = "help" ∨ name = "h"
          · simp [hh] at h
            exact Or.inl h.symm
          · simp [hh] at h
            exact Or.inr h.symm

/-- Once `flag.Parse()` has returned, a run that fails exits with status 1 as
its last event and holds at most the one fatal record; standard output holds
what gorm printed. -/
theorem main_fatal_record (w : World) (hfail : (main w).exit ≠ 0) :
    (main w).exit = 1 ∧
    (main w).trace.getLast? = some (.Exit 1) ∧
    ∃ (lg : Logger) (label err : String),
      (main w).proc.logger = lg ∧
      records (main w).trace =
        (if lg.Level = .PanicLevel then [] else [⟨lg.Out, .FatalLevel, label ++ err⟩]) ∧
      ((label = "Error reading config file: " ∧ lg = ⟨.stderr, .InfoLevel⟩ ∧
          w.readInConfig (configFile w) = .error err ∧ (main w).proc.stdout = []) ∨
       (∃ cfg, w.readInConfig (configFile w) = .ok cfg ∧
          ((label = "Error parsing log level: " ∧ lg = ⟨.stderr, .InfoLevel⟩ ∧
              ParseLevel w.quote (cfg "Logs.LogLevel") = .error err ∧
              (main w).proc.stdout = []) ∨
           (∃ lvl, ParseLevel w.quote (cfg "Logs.LogLevel") = .ok lvl ∧
              lg = ⟨.lumberjack ⟨cfg "Logs.LogFile", 10, 3, 28, true⟩, lvl⟩ ∧
              ((label = "gorm.Open err: " ∧ w.gormOpen (cfg "MySQL") = some err ∧
                  (main w).proc.stdout = w.gormOpenPrints (cfg "MySQL")) ∨
               (label = "db.DB err: " ∧ w.gormOpen (cfg "MySQL") = none ∧
                  w.dbDB (cfg "MySQL") = some err ∧
                  (main w).proc.stdout = w.gormOpenPrints (cfg "MySQL")) ∨
               (label = "AutoMigrate error: " ∧ w.gormOpen (cfg "MySQL") = none ∧
                  w.dbDB (cfg "MySQL") = none ∧
                  (w.autoMigrate w.schema [Player]).1 = some err ∧
                  (main w).proc.stdout = w.gormOpenPrints (cfg "MySQL") ++
                    w.autoMigratePrints w.schema [Player])))))) := by
  have last : ∀ (pre : List Event) (lg : Logger) (msg : String),
      (pre ++ fatalEvents lg msg).getLast? = some (.Exit 1) := by
    intro pre lg msg
    unfold fatalEvents
    split <;> simp [List.getLast?_append]
  have recs : ∀ (pre : List Event) (out : Output) (lvl : Level) (msg : String),
      records pre = [] →
      records (pre ++ fatalEvents ⟨out, lvl⟩ msg) =
        (if lvl = .PanicLevel then [] else [⟨out, .FatalLevel, msg⟩]) := by
    intro pre out lvl msg hp
    rw [records_append, hp, records_fatalEvents]
    cases lvl <;> simp [Logger.IsLevelEnabled, Level.toNat]
  rcases world_cases w with ⟨err, h⟩ | ⟨cfg, err, h, hl⟩ | ⟨cfg, lvl, err, h, hl, ho⟩ |
    ⟨cfg, lvl, err, h, hl, ho, hd⟩ | ⟨cfg, lvl, err, h, hl, ho, hd, hm⟩ |
    ⟨cfg, lvl, h, hl, ho, hd, hm⟩
  · obtain ⟨he, -, hlg, -, ht⟩ := main_read_error w err h
    refine ⟨he, by rw [ht]; exact last _ _ _, Logger.std, _, err, hlg, ?_,
      Or.inl ⟨rfl, rfl, h, main_read_error_stdout w err h⟩⟩
    rw [ht]
    exact recs _ _ _ _ (by simp [records])
  · obtain ⟨he, -, hlg, -, ht⟩ := main_level_error w cfg err h hl
    refine ⟨he, by rw [ht]; exact last _ _ _, Logger.std, _, err, hlg, ?_,
      Or.inr ⟨cfg, h, Or.inl ⟨rfl, rfl, hl, (main_level_error_stdout w cfg err h hl).1⟩⟩⟩
    rw [ht]
    exact recs _ _ _ _ (by simp [records])
  · obtain ⟨he, -, hlg, -, ht⟩ := main_open_error w cfg lvl err h hl ho
    refine ⟨he, by rw [ht]; exact last _ _ _, _, _, err, hlg, ?_,
      Or.inr ⟨cfg, h, Or.inr ⟨lvl, hl, rfl,
        Or.inl ⟨rfl, ho, (main_open_error_stdout w cfg lvl err h hl ho).1⟩⟩⟩⟩
    rw [ht]
    exact recs _ _ _ _ (by simp [records, setupEvents])
  · obtain ⟨he, -, hlg, -, ht⟩ := main_handle_error w cfg lvl err h hl ho hd
    refine ⟨he, by rw [ht]; exact last _ _ _, _, _, err, hlg, ?_,
      Or.inr ⟨cfg, h, Or.inr ⟨lvl, hl, rfl,
        Or.inr (Or.inl ⟨rfl, ho, hd, (main_handle_error_stdout w cfg lvl err h hl ho hd).1⟩)⟩⟩⟩
    rw [ht]
    exact recs _ _ _ _ (by simp [records, setupEvents])
  · obtain ⟨he, -, hlg, -, ht⟩ := main_migrate_error w cfg lvl err h hl ho hd hm
    refine ⟨he, by rw [ht]; exact last _ _ _, _, _, err, hlg, ?_,
      Or.inr ⟨cfg, h, Or.inr ⟨lvl, hl, rfl,
        Or.inr (Or.inr ⟨rfl, ho, hd, hm,
          (main_migrate_error_stdout w cfg lvl err h hl ho hd hm).1⟩)⟩⟩⟩
    rw [ht]
    exact recs _ _ _ _ (by simp [records, setupEvents, poolEvents])
  · exact absurd (main_success w cfg lvl h hl ho hd hm).1 hfail

/-- Once `flag.Parse()` has returned: when the migration phase is reached, and
what the one call of the migrator does to the run. -/
theorem main_migrator (w : World) :
    (Phase.runMigrations ∈ phasesStarted (main w).trace ↔
      ∃ cfg lvl, w.readInConfig (configFile w) = .ok cfg ∧
        ParseLevel w.quote (cfg "Logs.LogLevel") = .ok lvl ∧
        w.gormOpen (cfg "MySQL") = none ∧ w.dbDB (cfg "MySQL") = none) ∧
    (Phase.runMigrations ∈ phasesStarted (main w).trace →
      migrateCalls (main w).trace = [[Player]] ∧
      (main w).proc.schema = (w.autoMigrate w.schema [Player]).2 ∧
      ((w.autoMigrate w.schema [Player]).1 = none → (main w).exit = 0) ∧
      (∀ err, (w.autoMigrate w.schema [Player]).1 = some err →
        (main w).exit = 1 ∧
        ∀ r ∈ records (main w).trace, r.msg = "AutoMigrate error: " ++ err)) ∧
    (Phase.runMigrations ∉ phasesStarted (main w).trace →
      migrateCalls (main w).trace = [] ∧ (main w).proc.schema = w.schema) := by
  rcases world_cases w with ⟨err, h⟩ | ⟨cfg, err, h, hl⟩ | ⟨cfg, lvl, err, h, hl, ho⟩ |
    ⟨cfg, lvl, err, h, hl, ho, hd⟩ | ⟨cfg, lvl, err, h, hl, ho, hd, hm⟩ |
    ⟨cfg, lvl, h, hl, ho, hd, hm⟩
  · obtain ⟨-, -, -, hs, ht⟩ := main_read_error w err h
    simp [ht, hs, phasesStarted, fatalEvents_phase, phaseOf, firstOccurrences, h,
      migrateCalls_append, migrateCalls_fatalEvents, migrateCalls]
  · obtain ⟨-, -, -, hs, ht⟩ := main_level_error w cfg err h hl
    simp [ht, hs, phasesStarted, fatalEvents_phase, phaseOf, firstOccurrences, h, hl,
      migrateCalls_append, migrateCalls_fatalEvents, migrateCalls]
  · obtain ⟨-, -, -, hs, ht⟩ := main_open_error w cfg lvl err h hl ho
    simp [ht, hs, phasesStarted, fatalEvents_phase, phaseOf, firstOccurrences, h, hl, ho,
      setupEvents, migrateCalls_append, migrateCalls_fatalEvents, migrateCalls]
  · obtain ⟨-, -, -, hs, ht⟩ := main_handle_error w cfg lvl err h hl ho hd
    simp [ht, hs, phasesStarted, fatalEvents_phase, phaseOf, firstOccurrences, h, hl, ho, hd,
      setupEvents, migrateCalls_append, migrateCalls_fatalEvents, migrateCalls]
  · obtain ⟨he, -, -, hs, ht⟩ := main_migrate_error w cfg lvl err h hl ho hd hm
    have hreach : Phase.runMigrations ∈ phasesStarted (main w).trace := by
      simp [ht, phasesStarted, fatalEvents_phase, phaseOf, firstOccurrences, setupEvents,
        poolEvents]
    refine ⟨⟨fun _ => ⟨cfg, lvl, h, hl, ho, hd⟩, fun _ => hreach⟩, fun _ => ?_,
      fun hn => absurd hreach hn⟩
    refine ⟨?_, hs, fun hnone => ?_, fun err2 herr => ⟨he, ?_⟩⟩
    · simp [ht, setupEvents, poolEvents, migrateCalls_append, migrateCalls_fatalEvents,
        migrateCalls]
    · rw [hm] at hnone
      cases hnone
    · rw [hm] at herr
      cases herr
      intro r hr
      have h0 : records (setupEvents (configFile w) cfg lvl ++ poolEvents (cfg "MySQL") ++
          [Event.AutoMigrate [Player]]) = [] := by
        simp [records, setupEvents, poolEvents]
      rw [ht, records_append, h0, List.nil_append] at hr
      rw [(mem_records_fatalEvents _ _ _ hr).2.1]
  · obtain ⟨he, -, -, hs, ht⟩ := main_success w cfg lvl h hl ho hd hm
    have hreach : Phase.runMigrations ∈ phasesStarted (main w).trace := by
      simp [ht, phasesStarted, infoEvents_phase, phaseOf, firstOccurrences, setupEvents,
        poolEvents]
    refine ⟨⟨fun _ => ⟨cfg, lvl, h, hl, ho, hd⟩, fun _ => hreach⟩, fun _ => ?_,
      fun hn => absurd hreach hn⟩
    refine ⟨?_, hs, fun _ => he, fun err2 herr => ?_⟩
    · simp [ht, setupEvents, poolEvents, migrateCalls_append, migrateCalls_infoEvents,
        migrateCalls]
    · rw [hm] at herr
      cases herr

/-! ## The claims about the whole process -/

/-- Counterexample to C3 as stated: on the command line `-h` the process exits
with status 0 although no configuration was read (none could be: the loader
fails on every path), no level parsed, no database opened and nothing migrated;
`flag.Parse()` ended the process, and the trace holds that exit only. -/
theorem C3_counterexample :
    flagParse ["-h"] = .exited 0 ∧
    (process ["-h"] worldNoFile).exit = 0 ∧
    (process ["-h"] worldNoFile).trace = [.Exit 0] ∧
    ∀ path cfg, worldNoFile.readInConfig path ≠ .ok cfg :=
  ⟨by decide, by decide, by decide, fun _ _ h => by cases h⟩

/-- Claim C3, amended: when `flag.Parse()` returns, the process exits with
status 0 exactly when the configuration was read from the path of `-f`, the
level parsed, `gorm.Open` and `db.DB` succeeded and `db.AutoMigrate` of
`[Player]` returned no error; every other such run exits with status 1, builds
no pitaya summary and writes no informational record (so no success record).
When `flag.Parse()` ends the process itself, the status is 0 or 2, no phase is
started (the exit is the only event of the trace), no handle exists and the
schema is untouched. -/
theorem C3_exit_zero_iff_all_succeed (argv : List String) (w : World) :
    (∀ f rest, flagParse argv = .returned f rest →
      ((process argv w).exit = 0 ↔
        ∃ cfg lvl, w.readInConfig (f.getD "../etc/db.yaml") = .ok cfg ∧
          ParseLevel w.quote (cfg "Logs.LogLevel") = .ok lvl ∧
          w.gormOpen (cfg "MySQL") = none ∧ w.dbDB (cfg "MySQL") = none ∧
          (w.autoMigrate w.schema [Player]).1 = none) ∧
      ((process argv w).exit = 0 ∨ (process argv w).exit = 1) ∧
      ((process argv w).exit ≠ 0 →
        Event.NewDefaultPitayaConfig ∉ (process argv w).trace ∧
        ∀ r ∈ records (process argv w).trace, r.level = .FatalLevel)) ∧
    (∀ code, flagParse argv = .exited code →
      (process argv w).exit = code ∧ (code = 0 ∨ code = 2) ∧
      (process argv w).trace = [.Exit code] ∧
      (process argv w).db = none ∧ (process argv w).proc.schema = w.schema) := by
  constructor
  · intro f rest hp
    rw [process_returned argv w f rest hp]
    have key := main_exit_status { w with flagF := f, args := rest }
    rw [configFile_parsed] at key
    exact key
  · intro code hp
    rw [process_exited argv w code hp]
    exact ⟨rfl, parseArgs_exit_code argv none false code hp, rfl, rfl, rfl⟩

/-- Witness of C3: with `-f /etc/db.yaml` and a database that rejects the
migration the process exits with status 1 and writes nothing informational;
with `-bogus` it exits with status 2 before anything else.  `-help` ends the
process with status 0 like `-h`, `-f` without a value with status 2. -/
theorem C3_exit_zero_iff_all_succeed_witness :
    flagParse ["-help"] = .exited 0 ∧ flagParse ["-f"] = .exited 2 ∧
    flagParse ["-f", "/etc/db.yaml"] = .returned (some "/etc/db.yaml") [] ∧
    (process ["-f", "/etc/db.yaml"] worldRejected).exit ≠ 0 ∧
    (Event.NewDefaultPitayaConfig ∉ (process ["-f", "/etc/db.yaml"] worldRejected).trace ∧
      ∀ r ∈ records (process ["-f", "/etc/db.yaml"] worldRejected).trace,
        r.level = .FatalLevel) ∧
    flagParse ["-bogus"] = .exited 2 ∧
    ((process ["-bogus"] worldOk).exit = 2 ∧ (2 = 0 ∨ 2 = 2) ∧
      (process ["-bogus"] worldOk).trace = [.Exit 2] ∧
      (process ["-bogus"] worldOk).db = none ∧
      (process ["-bogus"] worldOk).proc.schema = worldOk.schema) :=
  ⟨by decide, by decide, by decide, by decide,
    ((C3_exit_zero_iff_all_succeed ["-f", "/etc/db.yaml"] worldRejected).1
      (some "/etc/db.yaml") [] (by decide)).2.2 (by decide),
    by decide,
    (C3_exit_zero_iff_all_succeed ["-bogus"] worldOk).2 2 (by decide)⟩

/-- Claim C6: the run-migrations phase is reached exactly when `flag.Parse()`
returned and the earlier phases succeeded.  On every run that reaches it
`db.AutoMigrate` is called exactly once, with the one-element list `[Player]`:
the schema the run leaves is the one the migrator answers for the live schema
and `[Player]`, the run exits with status 0 when that answer carries no error
and with status 1 and that error in its fatal record when it does, and the run
depends on the migrator through that one answer only.  On every other run the
migrator is not called and the schema stays as it was. -/
theorem C6_migrator_gets_player_once (argv : List String) (w : World) :
    (Phase.runMigrations ∈ phasesStarted (process argv w).trace ↔
      ∃ f rest cfg lvl, flagParse argv = .returned f rest ∧
        w.readInConfig (f.getD "../etc/db.yaml") = .ok cfg ∧
        ParseLevel w.quote (cfg "Logs.LogLevel") = .ok lvl ∧
        w.gormOpen (cfg "MySQL") = none ∧ w.dbDB (cfg "MySQL") = none) ∧
    (Phase.runMigrations ∈ phasesStarted (process argv w).trace →
      migrateCalls (process argv w).trace = [[Player]] ∧
      (process argv w).proc.schema = (w.autoMigrate w.schema [Player]).2 ∧
      ((w.autoMigrate w.schema [Player]).1 = none → (process argv w).exit = 0) ∧
      (∀ err, (w.autoMigrate w.schema [Player]).1 = some err →
        (process argv w).exit = 1 ∧
        ∀ r ∈ records (process argv w).trace, r.msg = "AutoMigrate error: " ++ err)) ∧
    (Phase.runMigrations ∉ phasesStarted (process argv w).trace →
      migrateCalls (process argv w).trace = [] ∧
      (process argv w).proc.schema = w.schema) ∧
    (∀ m : Schema → List Descriptor → Option String × Schema,
      m w.schema [Player] = w.autoMigrate w.schema [Player] →
      process argv { w with autoMigrate := m } = process argv w) := by
  cases hp : flagParse argv with
  | exited code =>
    refine ⟨?_, ?_, ?_, ?_⟩
    · rw [process_exited argv w code hp]
      simp [Run.trace, Proc.emit, Proc.start, phasesStarted, phaseOf, firstOccurrences]
    · rw [process_exited argv w code hp]
      simp [Run.trace, Proc.emit, Proc.start, phasesStarted, phaseOf, firstOccurrences]
    · rw [process_exited argv w code hp]
      intro _
      exact ⟨rfl, rfl⟩
    · intro m _
      rw [process_exited argv w code hp, process_exited argv _ code hp]
      rfl
  | returned f rest =>
    have key := main_migrator { w with flagF := f, args := rest }
    rw [configFile_parsed] at key
    obtain ⟨k1, k2, k3⟩ := key
    refine ⟨?_, ?_, ?_, ?_⟩
    · rw [process_returned argv w f rest hp, k1]
      constructor
      · rintro ⟨cfg, lvl, h⟩
        exact ⟨f, rest, cfg, lvl, rfl, h⟩
      · rintro ⟨f2, rest2, cfg, lvl, heq, h⟩
        injection heq with hf hr
        subst hf
        exact ⟨cfg, lvl, h⟩
    · rw [process_returned argv w f rest hp]
      exact k2
    · rw [process_returned argv w f rest hp]
      exact k3
    · intro m hm
      rw [process_returned argv w f rest hp, process_returned argv _ f rest hp]
      exact main_autoMigrate_congr { w with flagF := f, args := rest } m hm

/-- Witness of C6: with `-f /etc/db.yaml` and a database that rejects the
migration, the phase is reached, the migrator was called once with `[Player]`,
and the run carries its answer: the schema it left and its error. -/
theorem C6_migrator_gets_player_once_witness :
    Phase.runMigrations ∈ phasesStarted (process ["-f", "/etc/db.yaml"] worldRejected).trace ∧
    (worldRejected.autoMigrate worldRejected.schema [Player]).1 =
      some "Error 1142: ALTER command denied" ∧
    (migrateCalls (process ["-f", "/etc/db.yaml"] worldRejected).trace = [[Player]] ∧
      (process ["-f", "/etc/db.yaml"] worldRejected).proc.schema =
        (worldRejected.autoMigrate worldRejected.schema [Player]).2 ∧
      ((worldRejected.autoMigrate worldRejected.schema [Player]).1 = none →
        (process ["-f", "/etc/db.yaml"] worldRejected).exit = 0) ∧
      (∀ err, (worldRejected.autoMigrate worldRejected.schema [Player]).1 = some err →
        (process ["-f", "/etc/db.yaml"] worldRejected).exit = 1 ∧
        ∀ r ∈ records (process ["-f", "/etc/db.yaml"] worldRejected).trace,
          r.msg = "AutoMigrate error: " ++ err)) :=
  ⟨by decide, by rfl,
    (C6_migrator_gets_player_once ["-f", "/etc/db.yaml"] worldRejected).2.1 (by decide)⟩

/-- Counterexample to C8 as stated.  With `-f /nonexistent.yaml` the single fatal
record goes to `os.Stderr`, not to a rotating file writer (none is installed
yet).  When the server refuses the connection the record reads
`gorm.Open err: ...` and contains neither `DBOpenError` nor `MigrationError`;
under level `panic` the same failure exits with status 1 without any record.
When the migration is rejected, the fatal record is not the only line: gorm's
own logger has printed the failed statement on standard output, and it does so
under level `panic` too, where the logger itself writes nothing. -/
theorem C8_counterexample :
    ((process ["-f", "/nonexistent.yaml"] worldNoFile).exit = 1 ∧
      records (process ["-f", "/nonexistent.yaml"] worldNoFile).trace = [⟨.stderr, .FatalLevel,
        "Error reading config file: open /nonexistent.yaml: no such file or directory"⟩]) ∧
    ((process [] (worldRefused "info")).exit = 1 ∧
      records (process [] (worldRefused "info")).trace =
        [⟨.lumberjack ⟨"/var/log/db_migrate.log", 10, 3, 28, true⟩, .FatalLevel,
          "gorm.Open err: dial tcp 127.0.0.1:3306: connection refused"⟩] ∧
      ¬ "DBOpenError".data <:+:
        "gorm.Open err: dial tcp 127.0.0.1:3306: connection refused".data ∧
      ¬ "MigrationError".data <:+:
        "gorm.Open err: dial tcp 127.0.0.1:3306: connection refused".data) ∧
    ((process [] (worldRefused "panic")).exit = 1 ∧
      records (process [] (worldRefused "panic")).trace = []) ∧
    ((process [] (worldRejectedLoud "info")).exit = 1 ∧
      records (process [] (worldRejectedLoud "info")).trace =
        [⟨.lumberjack ⟨"/var/log/db_migrate.log", 10, 3, 28, true⟩, .FatalLevel,
          "AutoMigrate error: Error 1142: ALTER command denied"⟩] ∧
      (process [] (worldRejectedLoud "info")).proc.stdout =
        ["[error] Error 1142: ALTER command denied"]) ∧
    ((process [] (worldRejectedLoud "panic")).exit = 1 ∧
      records (process [] (worldRejectedLoud "panic")).trace = [] ∧
      (process [] (worldRejectedLoud "panic")).proc.stdout =
        ["[error] Error 1142: ALTER command denied"]) :=
  ⟨⟨by decide, by decide⟩, ⟨by decide, by decide, by decide, by decide⟩,
    ⟨by decide, by decide⟩, ⟨by decide, by decide, by decide⟩,
    ⟨by decide, by decide, by decide⟩⟩

/-- Claim C8, amended: when `flag.Parse()` has returned and one of the five phases
fails, the process exits with status 1, the exit being its last event, and the
process-wide logger writes no record other than at most one fatal record.  That
record is the label of the failed call followed by the error text of the
collaborator: `Error reading config file: `, `Error parsing log level: `,
`gorm.Open err: `, `db.DB err: ` or `AutoMigrate error: `.  For a failed
configuration read or level parse it is always written and goes to
`os.Stderr`, the rotating writer not being installed yet; for a failed
`gorm.Open`, `db.DB` or `db.AutoMigrate` it goes to the rotating writer named
by `Logs.LogFile` and is written unless the parsed level is `panic`.  Standard
output holds nothing but what gorm's own logger printed during `gorm.Open` and
`db.AutoMigrate`, and nothing at all when the failure came before them. -/
theorem C8_fatal_record_then_exit (argv : List String) (w : World) (f : Option String)
    (rest : List String) (hparse : flagParse argv = .returned f rest)
    (hfail : (process argv w).exit ≠ 0) :
    (process argv w).exit = 1 ∧
    (process argv w).trace.getLast? = some (.Exit 1) ∧
    ∃ (lg : Logger) (label err : String),
      (process argv w).proc.logger = lg ∧
      records (process argv w).trace =
        (if lg.Level = .PanicLevel then [] else [⟨lg.Out, .FatalLevel, label ++ err⟩]) ∧
      ((label = "Error reading config file: " ∧ lg = ⟨.stderr, .InfoLevel⟩ ∧
          w.readInConfig (f.getD "../etc/db.yaml") = .error err ∧
          (process argv w).proc.stdout = []) ∨
       (∃ cfg, w.readInConfig (f.getD "../etc/db.yaml") = .ok cfg ∧
          ((label = "Error parsing log level: " ∧ lg = ⟨.stderr, .InfoLevel⟩ ∧
              ParseLevel w.quote (cfg "Logs.LogLevel") = .error err ∧
              (process argv w).proc.stdout = []) ∨
           (∃ lvl, ParseLevel w.quote (cfg "Logs.LogLevel") = .ok lvl ∧
              lg = ⟨.lumberjack ⟨cfg "Logs.LogFile", 10, 3, 28, true⟩, lvl⟩ ∧
              ((label = "gorm.Open err: " ∧ w.gormOpen (cfg "MySQL") = some err ∧
                  (process argv w).proc.stdout = w.gormOpenPrints (cfg "MySQL")) ∨
               (label = "db.DB err: " ∧ w.gormOpen (cfg "MySQL") = none ∧
                  w.dbDB (cfg "MySQL") = some err ∧
                  (process argv w).proc.stdout = w.gormOpenPrints (cfg "MySQL")) ∨
               (label = "AutoMigrate error: " ∧ w.gormOpen (cfg "MySQL") = none ∧
                  w.dbDB (cfg "MySQL") = none ∧
                  (w.autoMigrate w.schema [Player]).1 = some err ∧
                  (process argv w).proc.stdout = w.gormOpenPrints (cfg "MySQL") ++
                    w.autoMigratePrints w.schema [Player])))))) := by
  rw [process_returned argv w f rest hparse] at hfail ⊢
  have key := main_fatal_record { w with flagF := f, args := rest } hfail
  rw [configFile_parsed] at key
  exact key

/-- Witness of C8: with `-f /etc/db.yaml`, level `info` and a migration that is
rejected while gorm prints the failed statement. -/
theorem C8_fatal_record_then_exit_witness :
    flagParse ["-f", "/etc/db.yaml"] = .returned (some "/etc/db.yaml") [] ∧
    (process ["-f", "/etc/db.yaml"] (worldRejectedLoud "info")).exit ≠ 0 ∧
    (process ["-f", "/etc/db.yaml"] (worldRejectedLoud "info")).exit = 1 ∧
    (process ["-f", "/etc/db.yaml"] (worldRejectedLoud "info")).trace.getLast? =
      some (.Exit 1) :=
  ⟨by decide, by decide,
    (C8_fatal_record_then_exit ["-f", "/etc/db.yaml"] (worldRejectedLoud "info")
      (some "/etc/db.yaml") [] (by decide) (by decide)).1,
    (C8_fatal_record_then_exit ["-f", "/etc/db.yaml"] (worldRejectedLoud "info")
      (some "/etc/db.yaml") [] (by decide) (by decide)).2.1⟩

/-- Counterexample to C9 as stated: `-f` is omitted on both command lines; on the
empty one the loader is handed `../etc/db.yaml`, on `-bogus` the other flag
makes `flag.Parse()` end the process with status 2 and no path is handed to the
loader at all. -/
theorem C9_counterexample :
    (process [] worldOk).trace.take 2 =
      [.SetConfigFile "../etc/db.yaml", .ReadInConfig "../etc/db.yaml"] ∧
    flagParse ["-bogus"] = .exited 2 ∧
    (process ["-bogus"] worldOk).trace = [.Exit 2] ∧
    (process ["-bogus"] worldOk).exit = 2 :=
  ⟨by decide, by decide, by decide, by decide⟩

/-- Claim C9, amended: when `flag.Parse()` returns, the path handed to the
configuration loader (`viper.SetConfigFile` followed by `viper.ReadInConfig`,
the first two calls) is the value of `-f` when the flag is given and
`../etc/db.yaml` when it is omitted, and no other path is handed to it: a
failure of the loader on that path is the failure of the run, its settings for
that path are the settings the run uses, and the run stays the same when the
loader answers differently for other paths or the environment changes.  The
value of `-f` is what follows `-f` or `--f`, as the next argument or after `=`.
When `flag.Parse()` ends the process itself (after `-h`, an undefined flag or
`-f` without a value), no path is handed to the loader: the exit is the only
event of the trace. -/
theorem C9_config_path_from_flag (argv : List String) (w : World) :
    (∀ f rest, flagParse argv = .returned f rest →
      (process argv w).trace.take 2 =
        [.SetConfigFile (f.getD "../etc/db.yaml"), .ReadInConfig (f.getD "../etc/db.yaml")] ∧
      (∀ q, Event.SetConfigFile q ∈ (process argv w).trace ↔ q = f.getD "../etc/db.yaml") ∧
      (∀ q, Event.ReadInConfig q ∈ (process argv w).trace ↔ q = f.getD "../etc/db.yaml") ∧
      (∀ err, w.readInConfig (f.getD "../etc/db.yaml") = .error err →
        (process argv w).exit = 1 ∧
        records (process argv w).trace =
          [⟨.stderr, .FatalLevel, "Error reading config file: " ++ err⟩]) ∧
      (∀ cfg, w.readInConfig (f.getD "../etc/db.yaml") = .ok cfg →
        (process argv w).proc.viper = cfg) ∧
      (∀ r : String → Except String (String → String),
        r (f.getD "../etc/db.yaml") = w.readInConfig (f.getD "../etc/db.yaml") →
        process argv { w with readInConfig := r } = process argv w)) ∧
    (∀ code, flagParse argv = .exited code →
      (process argv w).exit = code ∧ (process argv w).trace = [.Exit code]) ∧
    (∀ e : String → Option String, process argv { w with environ := e } = process argv w) ∧
    flagParse [] = .returned none [] ∧
    (∀ path, flagParse ["-f", path] = .returned (some path) []) ∧
    (∀ path, flagParse ["--f", path] = .returned (some path) []) ∧
    (∀ path, flagParse ["-f=" ++ path] = .returned (some path) []) ∧
    (∀ path, flagParse ["--f=" ++ path] = .returned (some path) []) := by
  refine ⟨?_, ?_, ?_, by decide, fun _ => rfl, fun _ => rfl, ?_, ?_⟩
  · intro f rest hp
    have hc := configFile_parsed w f rest
    refine ⟨?_, ?_, ?_, ?_, ?_, ?_⟩
    · rw [process_returned argv w f rest hp, ← hc]
      exact (config_events _ "").1
    · intro q
      rw [process_returned argv w f rest hp, ← hc]
      exact (config_events _ q).2.1
    · intro q
      rw [process_returned argv w f rest hp, ← hc]
      exact (config_events _ q).2.2
    · intro err herr
      rw [process_returned argv w f rest hp]
      rw [← hc] at herr
      obtain ⟨he, -, -, -, ht⟩ := main_read_error { w with flagF := f, args := rest } err herr
      refine ⟨he, ?_⟩
      rw [ht]
      simp [records, fatalEvents, Logger.std, Logger.IsLevelEnabled, Level.toNat]
    · intro cfg hcfg
      rw [process_returned argv w f rest hp]
      rw [← hc] at hcfg
      rcases world_cases { w with flagF := f, args := rest } with ⟨err, h⟩ |
        ⟨cfg2, err, h, hl⟩ | ⟨cfg2, lvl, err, h, hl, ho⟩ | ⟨cfg2, lvl, err, h, hl, ho, hd⟩ |
        ⟨cfg2, lvl, err, h, hl, ho, hd, hm⟩ | ⟨cfg2, lvl, h, hl, ho, hd, hm⟩
      · rw [hcfg] at h
        cases h
      · have := (main_level_error_stdout _ cfg2 err h hl).2
        rw [hcfg] at h
        cases h
        exact this
      · have := (main_open_error_stdout _ cfg2 lvl err h hl ho).2
        rw [hcfg] at h
        cases h
        exact this
      · have := (main_handle_error_stdout _ cfg2 lvl err h hl ho hd).2
        rw [hcfg] at h
        cases h
        exact this
      · have := (main_migrate_error_stdout _ cfg2 lvl err h hl ho hd hm).2
        rw [hcfg] at h
        cases h
        exact this
      · have := (main_success_stdout _ cfg2 lvl h hl ho hd hm).2
        rw [hcfg] at h
        cases h
        exact this
    · intro r hr
      rw [process_returned argv w f rest hp, process_returned argv _ f rest hp]
      rw [← hc] at hr
      exact main_readInConfig_congr { w with flagF := f, args := rest } r hr
  · intro code hp
    rw [process_exited argv w code hp]
    exact ⟨rfl, rfl⟩
  · intro e
    cases hp : flagParse argv with
    | exited code =>
      rw [process_exited argv w code hp, process_exited argv _ code hp]
      rfl
    | returned f rest =>
      rw [process_returned argv w f rest hp, process_returned argv _ f rest hp]
      rfl
  · intro path
    simp [flagParse, parseArgs, classify, splitValue]
  · intro path
    simp [flagParse, parseArgs, classify, splitValue]

/-- Witness of C9: with `-f /nonexistent.yaml` that path is the one handed to the
loader, although the loader would answer for `../etc/db.yaml`; its failure on
that path is the failure of the run. -/
theorem C9_config_path_from_flag_witness :
    flagParse ["-f", "/nonexistent.yaml"] = .returned (some "/nonexistent.yaml") [] ∧
    (process ["-f", "/nonexistent.yaml"] worldOnlyDefault).trace.take 2 =
      [.SetConfigFile "/nonexistent.yaml", .ReadInConfig "/nonexistent.yaml"] ∧
    ((process ["-f", "/nonexistent.yaml"] worldOnlyDefault).exit = 1 ∧
      records (process ["-f", "/nonexistent.yaml"] worldOnlyDefault).trace =
        [⟨.stderr, .FatalLevel, "Error reading config file: " ++ "no such file"⟩]) :=
  ⟨by decide,
    ((C9_config_path_from_flag ["-f", "/nonexistent.yaml"] worldOnlyDefault).1
      (some "/nonexistent.yaml") [] (by decide)).1,
    ((C9_config_path_from_flag ["-f", "/nonexistent.yaml"] worldOnlyDefault).1
      (some "/nonexistent.yaml") [] (by decide)).2.2.2.1 "no such file" (by rfl)⟩

end DbMigrate
